import Mathlib

/-!
Verification of the Qlik Sense Engine API client (`engine_api.py`).

The development shallowly embeds the parts of the client that the
specification talks about: JSON values are modelled by `JVal`, Python's
dynamic dictionary/list operations by small `Except`-valued helpers
(`pyGetD`, `pyContains`, `pySub`, `pyIter`), the WebSocket connection by an
explicit state record, and each Python method by a Lean function of the
same name.  Machine floats never matter for the claims at issue, so JSON
numbers are carried as `Int`.
-/

/-- JSON values as manipulated by the client (numbers carried as `Int`;
none of the verified claims depends on float arithmetic). -/
inductive JVal where
  | null
  | bool (b : Bool)
  | num (n : Int)
  | str (s : String)
  | arr (xs : List JVal)
  | obj (fields : List (String × JVal))

/-- Association-list lookup on a JSON object's field list (first match). -/
def jLookup : List (String × JVal) → String → Option JVal
  | [], _ => none
  | (k, v) :: rest, key => if k = key then some v else jLookup rest key

/-- Python `dict` insertion: update in place when the key exists
(keeping its position), append otherwise. -/
def dictInsert : List (String × JVal) → String → JVal → List (String × JVal)
  | [], key, v => [(key, v)]
  | (k, w) :: rest, key, v =>
    if k = key then (k, v) :: rest else (k, w) :: dictInsert rest key v

/-- The keys of a JSON object, in insertion order (`[]` for non-objects). -/
def jKeys : JVal → List String
  | .obj fs => fs.map (·.1)
  | _ => []

/-- Key membership on a JSON object (`false` on non-objects). -/
def jHasKey (v : JVal) (k : String) : Bool :=
  match v with
  | .obj fs => (jLookup fs k).isSome
  | _ => false

/-- Pure `dict.get` with default, used to state theorems about the shapes
the code builds (`none`-free: non-objects yield the default). -/
def jGetD (v : JVal) (k : String) (d : JVal) : JVal :=
  match v with
  | .obj fs => (jLookup fs k).getD d
  | _ => d

def isObjJ : JVal → Bool
  | .obj _ => true
  | _ => false

def isArrJ : JVal → Bool
  | .arr _ => true
  | _ => false

/-- Substring test (Python's `in` on strings). -/
def containsSub (s pat : String) : Bool :=
  s.data.tails.any (fun t => pat.data.isPrefixOf t)

/-- ASCII lowercase of one character (what Python's `str.lower` does on the
ASCII error messages at issue). -/
def lowerChar (c : Char) : Char :=
  if 65 ≤ c.toNat ∧ c.toNat ≤ 90 then Char.ofNat (c.toNat + 32) else c

/-- ASCII lowercase of a string. -/
def strLower (s : String) : String :=
  String.mk (s.data.map lowerChar)

def lbrace : String := "\x7b"

def rbrace : String := "\x7d"

def joinComma : List String → String
  | [] => ""
  | [s] => s
  | s :: rest => s ++ ", " ++ joinComma rest

/-- `json.dumps` of a value (default separators; string escaping is omitted
because every frame the theorems mention is plain ASCII without quotes or
backslashes). -/
def serialize : JVal → String
  | .null => "null"
  | .bool true => "true"
  | .bool false => "false"
  | .num n => toString n
  | .str s => "\"" ++ s ++ "\""
  | .arr xs => "[" ++ joinComma (xs.attach.map (fun x => serialize x.1)) ++ "]"
  | .obj fs =>
    lbrace ++
      joinComma (fs.attach.map (fun f => "\"" ++ f.1.1 ++ "\": " ++ serialize f.1.2)) ++
      rbrace
decreasing_by
  all_goals
    first
    | (have h := List.sizeOf_lt_of_mem x.2
       simp only [JVal.arr.sizeOf_spec]
       omega)
    | (have h := List.sizeOf_lt_of_mem f.2
       have h2 : sizeOf f.1.2 < sizeOf f.1 := by
         obtain ⟨⟨k, v⟩, hm⟩ := f
         simp only [Prod.mk.sizeOf_spec]
         omega
       simp only [JVal.obj.sizeOf_spec]
       omega)

/-- Python `repr` of a JSON-derived value (what `str` produces on dicts and
lists inside f-string error messages). -/
def pyRepr : JVal → String
  | .null => "None"
  | .bool true => "True"
  | .bool false => "False"
  | .num n => toString n
  | .str s => "\x27" ++ s ++ "\x27"
  | .arr xs => "[" ++ joinComma (xs.attach.map (fun x => pyRepr x.1)) ++ "]"
  | .obj fs =>
    lbrace ++
      joinComma (fs.attach.map (fun f => "\x27" ++ f.1.1 ++ "\x27: " ++ pyRepr f.1.2)) ++
      rbrace
decreasing_by
  all_goals
    first
    | (have h := List.sizeOf_lt_of_mem x.2
       simp only [JVal.arr.sizeOf_spec]
       omega)
    | (have h := List.sizeOf_lt_of_mem f.2
       have h2 : sizeOf f.1.2 < sizeOf f.1 := by
         obtain ⟨⟨k, v⟩, hm⟩ := f
         simp only [Prod.mk.sizeOf_spec]
         omega
       simp only [JVal.obj.sizeOf_spec]
       omega)

/-- Python `str` of a JSON-derived value: identity on strings, `repr`
otherwise. -/
def pyStr (v : JVal) : String :=
  match v with
  | .str s => s
  | _ => pyRepr v

/-- The exceptions the client raises or propagates. -/
inductive Exn where
  | engine (payload : JVal)
  | connection (msg : String)
  | pyerr (msg : String)
  | noResponse

/-- Python `str(e)` of an exception (the engine error is raised as
`Exception("Engine API error: " + str(payload))`). -/
def exnStr : Exn → String
  | .engine p => "Engine API error: " ++ pyStr p
  | .connection m => m
  | .pyerr m => m
  | .noResponse => "no response from engine"

/-- Python truthiness of a JSON-derived value. -/
def pyTruthy : JVal → Bool
  | .null => false
  | .bool b => b
  | .num n => n != 0
  | .str s => s != ""
  | .arr xs => !xs.isEmpty
  | .obj fs => !fs.isEmpty

/-- Python `v.get(k, d)`: raises `AttributeError` unless `v` is a dict. -/
def pyGetD (v : JVal) (k : String) (d : JVal) : Except Exn JVal :=
  match v with
  | .obj fs => .ok ((jLookup fs k).getD d)
  | _ => .error (.pyerr ("AttributeError: no attribute get (key " ++ k ++ ")"))

/-- Python `v.get(k)` (default `None` kept as `Option`). -/
def pyGetOpt (v : JVal) (k : String) : Except Exn (Option JVal) :=
  match v with
  | .obj fs => .ok (jLookup fs k)
  | _ => .error (.pyerr ("AttributeError: no attribute get (key " ++ k ++ ")"))

/-- Python `k in v` for a string `k`: key membership on dicts, element
membership on lists, substring on strings, `TypeError` otherwise. -/
def pyContains (v : JVal) (k : String) : Except Exn Bool :=
  match v with
  | .obj fs => .ok (jLookup fs k).isSome
  | .arr xs =>
    .ok (xs.any (fun x => match x with | .str s => s = k | _ => false))
  | .str s => .ok (containsSub s k)
  | _ => .error (.pyerr "TypeError: argument not iterable")

/-- Python subscription `v[key]` for a string key: dict lookup
(`KeyError` when absent), `TypeError` on every other shape. -/
def pySubKey (v : JVal) (key : String) : Except Exn JVal :=
  match v with
  | .obj fs =>
    match jLookup fs key with
    | some w => .ok w
    | none => .error (.pyerr ("KeyError: " ++ key))
  | _ => .error (.pyerr "TypeError: not subscriptable by string")

/-- Python subscription `v[i]` for an integer index (lists only; the client
never indexes strings). -/
def pySubIdx (v : JVal) (i : Int) : Except Exn JVal :=
  match v with
  | .arr xs =>
    let j : Int := if i < 0 then i + xs.length else i
    if h : 0 ≤ j ∧ j.toNat < xs.length then .ok (xs.get ⟨j.toNat, h.2⟩)
    else .error (.pyerr "IndexError: list index out of range")
  | _ => .error (.pyerr "TypeError: not subscriptable by index")

/-- Python iteration `for x in v`: elements of a list, keys of a dict,
characters of a string, `TypeError` otherwise. -/
def pyIter (v : JVal) : Except Exn (List JVal) :=
  match v with
  | .arr xs => .ok xs
  | .obj fs => .ok (fs.map (fun f => .str f.1))
  | .str s => .ok (s.data.map (fun c => .str (String.singleton c)))
  | _ => .error (.pyerr "TypeError: not iterable")

/-- Python `len(v)`: `TypeError` on unsized values. -/
def pyLen (v : JVal) : Except Exn Nat :=
  match v with
  | .arr xs => .ok xs.length
  | .obj fs => .ok fs.length
  | .str s => .ok s.length
  | _ => .error (.pyerr "TypeError: object has no len")

/-!
## Query compiler (`create_hypercube`, engine_api.py lines 755-894)

The pure compilation step: converting old-format (bare string) and
new-format (structured spec) dimension/measure arguments and building the
hypercube object definition.  The structured specs are typed with the keys
the code reads (`field`, `sort_by`, `expression`, `label`).
-/

/-- The `sort_by` sub-dictionary of a structured dimension spec; every key
is optional because the code reads each with `.get` and a default. -/
structure SortByDim where
  qSortByNumeric : Option Int
  qSortByAscii : Option Int
  qSortByExpression : Option Int
  qExpression : Option String

/-- The default sort block injected for dimensions (lines 777-782 and
788-793): ASCII ascending. -/
def defaultDimSort : SortByDim :=
  { qSortByNumeric := some 0, qSortByAscii := some 1,
    qSortByExpression := some 0, qExpression := some "" }

/-- A dimension argument to `create_hypercube`: a bare field-name string
(old format) or a structured spec. -/
inductive DimInput where
  | fieldName (s : String)
  | spec (field : String) (sort_by : Option SortByDim)

/-- A converted dimension (after lines 771-794 both formats carry a
`field` and a `sort_by`). -/
structure ConvDim where
  field : String
  sort_by : SortByDim

/-- Lines 771-794: old format gets the ASCII-ascending default; a
structured spec lacking `sort_by` gets the same default injected. -/
def convertDim : DimInput → ConvDim
  | .fieldName s => { field := s, sort_by := defaultDimSort }
  | .spec f none => { field := f, sort_by := defaultDimSort }
  | .spec f (some sb) => { field := f, sort_by := sb }

/-- A measure argument: a bare expression string or a structured spec
(the `sort_by` of a structured measure is passed through verbatim, so it
stays an arbitrary JSON value). -/
inductive MeasInput where
  | exprStr (s : String)
  | spec (expression : String) (label : Option String) (sort_by : Option JVal)

/-- A converted measure. -/
structure ConvMeas where
  expression : String
  label : Option String
  sort_by : JVal

/-- The default measure sort block (lines 802-804 and 810-812): numeric
descending. -/
def defaultMeasSort : JVal := .obj [("qSortByNumeric", .num (-1))]

/-- Lines 796-813: old format gets the numeric-descending default; a
structured spec lacking `sort_by` gets the same default injected. -/
def convertMeasure : MeasInput → ConvMeas
  | .exprStr s => { expression := s, label := none, sort_by := defaultMeasSort }
  | .spec e l none => { expression := e, label := l, sort_by := defaultMeasSort }
  | .spec e l (some sb) => { expression := e, label := l, sort_by := sb }

/-- The per-dimension entry of `qDimensions` (lines 817-835). -/
def buildQDim (d : ConvDim) : JVal :=
  .obj [("qDef", .obj [
          ("qFieldDefs", .arr [.str d.field]),
          ("qSortCriterias", .arr [.obj [
            ("qSortByState", .num 0),
            ("qSortByFrequency", .num 0),
            ("qSortByNumeric", .num (d.sort_by.qSortByNumeric.getD 0)),
            ("qSortByAscii", .num (d.sort_by.qSortByAscii.getD 1)),
            ("qSortByLoadOrder", .num 0),
            ("qSortByExpression", .num (d.sort_by.qSortByExpression.getD 0)),
            ("qExpression", .obj [("qv", .str (d.sort_by.qExpression.getD ""))])]])]),
        ("qNullSuppression", .bool false),
        ("qIncludeElemValue", .bool true)]

/-- The per-measure entry of `qMeasures` (lines 838-843); `i` is the
position used for the default label. -/
def buildQMeasure (i : Nat) (m : ConvMeas) : JVal :=
  .obj [("qDef", .obj [
          ("qDef", .str m.expression),
          ("qLabel", .str (m.label.getD ("Measure_" ++ toString i)))]),
        ("qSortBy", m.sort_by)]

/-- The full session-object definition `create_hypercube` builds
(lines 764-865). -/
def create_hypercube_def (dimensions : List DimInput) (measures : List MeasInput)
    (max_rows : Int) : JVal :=
  let converted_dimensions := dimensions.map convertDim
  let converted_measures := measures.map convertMeasure
  .obj [("qInfo", .obj [
          ("qId", .str ("hypercube-" ++ toString converted_dimensions.length ++ "d-" ++
            toString converted_measures.length ++ "m")),
          ("qType", .str "HyperCube")]),
        ("qHyperCubeDef", .obj [
          ("qDimensions", .arr (converted_dimensions.map buildQDim)),
          ("qMeasures", .arr (converted_measures.enum.map (fun p => buildQMeasure p.1 p.2))),
          ("qInitialDataFetch", .arr [.obj [
            ("qTop", .num 0), ("qLeft", .num 0), ("qHeight", .num max_rows),
            ("qWidth", .num (converted_dimensions.length + converted_measures.length))]]),
          ("qSuppressZero", .bool false),
          ("qSuppressMissing", .bool false),
          ("qMode", .str "S"),
          ("qInterColumnSortOrder", .arr ((List.range
            (converted_dimensions.length + converted_measures.length)).map
            (fun k => .num k)))])]

/-- C2: for every dimension list D, measure list M and row limit n, the
compiled hypercube definition's initial data fetch has qWidth = |D| + |M|,
qHeight = n, and qTop = qLeft = 0. -/
theorem create_hypercube_fetch_window (D : List DimInput) (M : List MeasInput) (n : Int) :
    jGetD (jGetD (create_hypercube_def D M n) "qHyperCubeDef" .null)
        "qInitialDataFetch" .null
      = .arr [.obj [("qTop", .num 0), ("qLeft", .num 0), ("qHeight", .num n),
                    ("qWidth", .num (D.length + M.length))]] := by
  simp [create_hypercube_def, jGetD, jLookup]

/-- C3: a bare field-name string and the structured spec with that field
and no `sort_by` compile to the same converted dimension and the same
engine dimension definition, whose sort-criteria block is the
ASCII-ascending default; likewise a bare measure expression and the
structured spec with no `sort_by` compile to the same measure definition,
whose `qSortBy` is the numeric-descending default. -/
theorem create_hypercube_default_sort_equivalence (f e : String) (i : Nat) :
    convertDim (.fieldName f) = convertDim (.spec f none)
    ∧ buildQDim (convertDim (.fieldName f)) = buildQDim (convertDim (.spec f none))
    ∧ jGetD (jGetD (buildQDim (convertDim (.fieldName f))) "qDef" .null)
        "qSortCriterias" .null
      = .arr [.obj [("qSortByState", .num 0), ("qSortByFrequency", .num 0),
          ("qSortByNumeric", .num 0), ("qSortByAscii", .num 1),
          ("qSortByLoadOrder", .num 0), ("qSortByExpression", .num 0),
          ("qExpression", .obj [("qv", .str "")])]]
    ∧ convertMeasure (.exprStr e) = convertMeasure (.spec e none none)
    ∧ buildQMeasure i (convertMeasure (.exprStr e))
      = buildQMeasure i (convertMeasure (.spec e none none))
    ∧ jGetD (buildQMeasure i (convertMeasure (.exprStr e))) "qSortBy" .null
      = .obj [("qSortByNumeric", .num (-1))] :=
  ⟨rfl, rfl, rfl, rfl, rfl, rfl⟩

/-!
## Transport negotiator (`connect`, engine_api.py lines 39-105)

A candidate endpoint attempt either fails inside
`websocket.create_connection` (so `self.ws` is never assigned), fails on
the initial `recv` (so the fresh socket is assigned and then closed by the
handler), or succeeds.  The trace records socket open/close events.
-/

inductive AttemptOutcome where
  | createFail (err : String)
  | recvFail (err : String)
  | success

def AttemptOutcome.isSuccess : AttemptOutcome → Bool
  | .success => true
  | _ => false

/-- `str(e)` of the exception a failing attempt raised. -/
def AttemptOutcome.errText : AttemptOutcome → String
  | .createFail e => e
  | .recvFail e => e
  | .success => ""

inductive ConnEvent where
  | opened (i : Nat)
  | closed (i : Nat)
deriving DecidableEq

/-- One iteration of the candidate loop (lines 79-101) for a failing
candidate: on `createFail` the assignment to `self.ws` never happened, so
the handler closes whatever connection the attribute previously held; on
`recvFail` the fresh socket was assigned and is closed.  Either way
`self.ws` is `None` afterwards.  Returns the new `self.ws`, the socket
events, and the error recorded into `last_error`. -/
def tryCandidate (ws : Option Nat) (i : Nat) :
    AttemptOutcome → Option Nat × List ConnEvent × Option String
  | .createFail e =>
    match ws with
    | some c => (none, [.closed c], some e)
    | none => (none, [], some e)
  | .recvFail e => (none, [.opened i, .closed i], some e)
  | .success => (some i, [.opened i], none)

/-- Python `str(last_error)` in the final `ConnectionError` message. -/
def strOfLastErr : Option String → String
  | none => "None"
  | some s => s

/-- The candidate loop of `connect` (lines 78-105): try each candidate in
order, remember the last error, raise `ConnectionError` when the list is
exhausted.  Returns the result, the final `self.ws`, and the event
trace. -/
def connectLoop : List AttemptOutcome → Nat → Option Nat → Option String →
    Except String Nat × Option Nat × List ConnEvent
  | [], _, ws, lastErr =>
    (.error ("Failed to connect to Engine API. Last error: " ++ strOfLastErr lastErr),
     ws, [])
  | o :: rest, i, ws, lastErr =>
    match o with
    | .success => (.ok i, some i, [.opened i])
    | o =>
      let t := tryCandidate ws i o
      let newLast := match t.2.2 with | some s => some s | none => lastErr
      let r := connectLoop rest (i + 1) t.1 newLast
      (r.1, r.2.1, t.2.1 ++ r.2.2)

/-- `connect` (lines 39-105): the endpoint candidates are tried starting
from a fresh client (`self.ws = None`, no error recorded). -/
def connect (cands : List AttemptOutcome) :
    Except String Nat × Option Nat × List ConnEvent :=
  connectLoop cands 0 none none

/-- The events a failed candidate contributes when `self.ws` was `None`
when it was tried. -/
def failEvents (p : Nat × AttemptOutcome) : List ConnEvent :=
  match p.2 with
  | .recvFail _ => [.opened p.1, .closed p.1]
  | _ => []

/-!
## RPC correlator (`send_request`, engine_api.py lines 113-152)

The connection's incoming frames are modelled as parsed JSON values whose
wire text is `serialize`; `recv` hands the code the wire text, on which
the loop's `"result" in data` / `"error" in data` checks are substring
tests, and `json.loads` recovers the value.
-/

/-- A request envelope as written to the socket (line 131-137). -/
structure SentReq where
  id : Nat
  handle : JVal
  method : String
  params : List JVal

/-- The connection state: whether `self.ws` is set, the per-connection
request counter, the pending incoming frames, and the envelopes sent. -/
structure ConnSt where
  ws : Bool
  request_id : Nat
  incoming : List JVal
  sent : List SentReq

/-- Whether a frame's wire text makes the read loop stop (line 144): the
raw text contains the substring "result" or the substring "error". -/
def frameTextMatch (f : JVal) : Bool :=
  containsSub (serialize f) "result" || containsSub (serialize f) "error"

/-- The read loop (lines 142-145): frames are consumed until the first
whose wire text matches; returns that frame and the frames beyond it. -/
def recvLoop : List JVal → Option JVal × List JVal
  | [] => (none, [])
  | f :: rest => if frameTextMatch f then (some f, rest) else recvLoop rest

/-- Modelled from the spec's words ("reads frames in a loop until one is
seen that contains either a `result` or an `error` key"): the read loop as
the specification describes it, stopping on key presence instead of on the
wire text. -/
def recvLoopKeyBased : List JVal → Option JVal × List JVal
  | [] => (none, [])
  | f :: rest =>
    if jHasKey f "result" || jHasKey f "error" then (some f, rest)
    else recvLoopKeyBased rest

/-- `send_request` (lines 113-152): raise `ConnectionError` when not
connected; otherwise assign the next request id, record the envelope, read
frames until one matches, then fail with the engine's error payload or
return the `result` value (empty dict when absent). -/
def send_request (method : String) (params : List JVal) (handle : JVal)
    (st : ConnSt) : Except Exn JVal × ConnSt :=
  if st.ws = false then
    (.error (.connection "Not connected to Engine API"), st)
  else
    let rid := st.request_id + 1
    let st1 : ConnSt :=
      { st with request_id := rid,
                sent := st.sent ++ [{ id := rid, handle := handle,
                                      method := method, params := params }] }
    match recvLoop st1.incoming with
    | (none, _) => (.error .noResponse, { st1 with incoming := [] })
    | (some f, rest) =>
      let st2 : ConnSt := { st1 with incoming := rest }
      match pyContains f "error" with
      | .error e => (.error e, st2)
      | .ok true =>
        match pySubKey f "error" with
        | .error e => (.error e, st2)
        | .ok payload => (.error (.engine payload), st2)
      | .ok false =>
        match pyGetD f "result" (.obj []) with
        | .error e => (.error e, st2)
        | .ok r => (.ok r, st2)

/-- A sequence of `send_request` calls on one connection (results
discarded; only the state evolution matters for the id sequence). -/
def runCalls (ops : List (String × List JVal × JVal)) (st : ConnSt) : ConnSt :=
  ops.foldl (fun s c => (send_request c.1 c.2.1 c.2.2 s).2) st

/-- The error text of the last element of a candidate list (`last_error`
after all candidates failed). -/
def lastErrText : List AttemptOutcome → String
  | [] => ""
  | [o] => o.errText
  | _ :: o :: rest => lastErrText (o :: rest)

/-- Auxiliary: the candidate loop with `self.ws = None` on entry, when
every candidate fails, raises with the last error, leaves `self.ws`
cleared, and emits exactly each failing candidate's open/close pair. -/
theorem connectLoop_fail_aux (cands : List AttemptOutcome) :
    ∀ (i : Nat) (lastErr : Option String),
      (∀ o ∈ cands, o.isSuccess = false) → cands ≠ [] →
      connectLoop cands i none lastErr =
        (.error ("Failed to connect to Engine API. Last error: " ++ lastErrText cands),
         none, (List.enumFrom i cands).flatMap failEvents) := by
  induction cands with
  | nil => intro i lastErr _ hne; exact absurd rfl hne
  | cons o rest ih =>
    intro i lastErr h2 _
    have ho : o.isSuccess = false := h2 o (List.mem_cons_self o rest)
    by_cases hrest : rest = []
    · subst hrest
      cases o with
      | success => simp [AttemptOutcome.isSuccess] at ho
      | createFail e =>
        simp [connectLoop, tryCandidate, strOfLastErr, lastErrText,
          AttemptOutcome.errText, failEvents]
      | recvFail e =>
        simp [connectLoop, tryCandidate, strOfLastErr, lastErrText,
          AttemptOutcome.errText, failEvents]
    · have h2p : ∀ x ∈ rest, x.isSuccess = false :=
        fun x hx => h2 x (List.mem_cons_of_mem o hx)
      have hlast : lastErrText (o :: rest) = lastErrText rest := by
        cases rest with
        | nil => exact absurd rfl hrest
        | cons b tl => simp [lastErrText]
      cases o with
      | success => simp [AttemptOutcome.isSuccess] at ho
      | createFail e =>
        have hrec := ih (i + 1) (some e) h2p hrest
        simp [connectLoop, tryCandidate, hrec, hlast, failEvents]
      | recvFail e =>
        have hrec := ih (i + 1) (some e) h2p hrest
        simp [connectLoop, tryCandidate, hrec, hlast, failEvents]

/-- C5: when every attempted candidate endpoint fails, `connect` raises a
`ConnectionError` whose message embeds the last candidate's underlying
error text, retains no partial connection (the final `self.ws` is `None`,
and each failed candidate leaves `self.ws` at `None`), and each failed
candidate's opened socket is closed within that candidate's own event
block, before any later candidate's events. -/
theorem connect_all_candidates_fail (cands : List AttemptOutcome)
    (h1 : cands ≠ []) (h2 : ∀ o ∈ cands, o.isSuccess = false) :
    connect cands =
      (.error ("Failed to connect to Engine API. Last error: " ++ lastErrText cands),
       none, cands.enum.flatMap failEvents)
    ∧ (∀ (ws : Option Nat) (i : Nat) (o : AttemptOutcome),
        o.isSuccess = false → (tryCandidate ws i o).1 = none) := by
  constructor
  · have h := connectLoop_fail_aux cands 0 none h2 h1
    simpa [connect, List.enum] using h
  · intro ws i o ho
    cases o with
    | success => simp [AttemptOutcome.isSuccess] at ho
    | createFail e => cases ws <;> rfl
    | recvFail e => rfl

/-- Witness for C5: four refused candidates (spec scenario D); the message
carries the fourth candidate's error, the connection attribute ends
`None`, and the one partially-opened socket (candidate 1) was closed
within its own block. -/
theorem connect_all_candidates_fail_witness :
    connect [.createFail "refused A", .recvFail "refused B",
             .createFail "refused C", .createFail "refused D"] =
      (.error "Failed to connect to Engine API. Last error: refused D", none,
       [.opened 1, .closed 1]) := by
  have h := connect_all_candidates_fail
    [.createFail "refused A", .recvFail "refused B",
     .createFail "refused C", .createFail "refused D"]
    (by simp) (by decide)
  rw [h.1]
  rfl

/-- Auxiliary: a `send_request` call on a live connection leaves the
connection live, bumps the counter by one, and appends exactly one
envelope carrying the new id, whatever the incoming frames contain. -/
theorem send_request_connected_state (m : String) (p : List JVal) (hd : JVal)
    (st : ConnSt) (hws : st.ws = true) :
    ((send_request m p hd st).2).ws = true
    ∧ ((send_request m p hd st).2).request_id = st.request_id + 1
    ∧ ((send_request m p hd st).2).sent
      = st.sent ++ [{ id := st.request_id + 1, handle := hd,
                      method := m, params := p }] := by
  unfold send_request
  rw [hws]
  simp only [Bool.true_eq_false, if_false]
  split
  · simp
  · split
    · simp
    · split <;> simp
    · split <;> simp

/-- C10: `send_request` on a disconnected client fails with
`ConnectionError` before any id is assigned and leaves the state (counter
and sent envelopes) untouched; and on a live connection the ids actually
sent are consecutive, so the id sequence is gap-free and strictly
increasing. -/
theorem send_request_disconnected_atomic :
    (∀ (m : String) (p : List JVal) (hd : JVal) (st : ConnSt), st.ws = false →
        send_request m p hd st = (.error (.connection "Not connected to Engine API"), st))
    ∧ (∀ (ops : List (String × List JVal × JVal)) (st : ConnSt), st.ws = true →
        (runCalls ops st).sent.map SentReq.id
          = st.sent.map SentReq.id ++ List.range' (st.request_id + 1) ops.length
        ∧ (runCalls ops st).request_id = st.request_id + ops.length) := by
  constructor
  · intro m p hd st h
    simp [send_request, h]
  · intro ops
    induction ops with
    | nil => intro st _; simp [runCalls]
    | cons c rest ih =>
      intro st h
      have hs := send_request_connected_state c.1 c.2.1 c.2.2 st h
      have hrec := ih ((send_request c.1 c.2.1 c.2.2 st).2) hs.1
      have hfold : runCalls (c :: rest) st
          = runCalls rest ((send_request c.1 c.2.1 c.2.2 st).2) := rfl
      rw [hfold]
      constructor
      · rw [hrec.1, hs.2.2, hs.2.1]
        simp [List.range'_succ]
      · rw [hrec.2, hs.2.1]
        simp only [List.length_cons]
        omega

/-- Witness for C10: a disconnected call fails and changes nothing, and
two calls on a fresh live connection send exactly the ids 1 and 2. -/
theorem send_request_disconnected_atomic_witness :
    send_request "GetDocList" [] (.num (-1))
        { ws := false, request_id := 5, incoming := [], sent := [] }
      = (.error (.connection "Not connected to Engine API"),
         { ws := false, request_id := 5, incoming := [], sent := [] })
    ∧ (runCalls [("OpenDoc", [], .num (-1)), ("GetLayout", [], .num 2)]
        { ws := true, request_id := 0, incoming := [], sent := [] }).sent.map SentReq.id
      = [1, 2] := by
  have h := send_request_disconnected_atomic
  constructor
  · exact h.1 "GetDocList" [] (.num (-1)) _ rfl
  · have h2 := (h.2 [("OpenDoc", [], .num (-1)), ("GetLayout", [], .num 2)]
      { ws := true, request_id := 0, incoming := [], sent := [] } rfl).1
    simpa using h2

/-- A push frame that carries neither a `result` nor an `error` key but
whose wire text contains the substring "result" (inside "resulting"). -/
def pushFrame : JVal := .obj [("method", .str "push"), ("params", .str "resulting data")]

/-- The genuine response frame behind `pushFrame`. -/
def resultFrame : JVal := .obj [("result", .obj [("x", .num 1)])]

/-- A notification frame whose wire text contains neither substring. -/
def noiseFrame : JVal := .obj [("method", .str "ping")]

/-- An engine error frame. -/
def errFrame : JVal := .obj [("error", .str "bad request")]

theorem frameTextMatch_pushFrame : frameTextMatch pushFrame = true := by
  have hs : serialize pushFrame
      = "\x7b\"method\": \"push\", \"params\": \"resulting data\"\x7d" := by
    simp [pushFrame, serialize, joinComma, lbrace, rbrace]
  unfold frameTextMatch
  rw [hs]
  decide

theorem frameTextMatch_noiseFrame : frameTextMatch noiseFrame = false := by
  have hs : serialize noiseFrame = "\x7b\"method\": \"ping\"\x7d" := by
    simp [noiseFrame, serialize, joinComma, lbrace, rbrace]
  unfold frameTextMatch
  rw [hs]
  decide

theorem frameTextMatch_errFrame : frameTextMatch errFrame = true := by
  have hs : serialize errFrame = "\x7b\"error\": \"bad request\"\x7d" := by
    simp [errFrame, serialize, joinComma, lbrace, rbrace]
  unfold frameTextMatch
  rw [hs]
  decide

/-- Auxiliary: the read loop stops at the first frame whose wire text
matches, discarding exactly the non-matching frames before it. -/
theorem recvLoop_split (frames : List JVal) :
    ∀ f rest, recvLoop frames = (some f, rest) →
      ∃ dropped, frames = dropped ++ f :: rest
        ∧ (∀ g ∈ dropped, frameTextMatch g = false) ∧ frameTextMatch f = true := by
  induction frames with
  | nil => intro f rest h; simp [recvLoop] at h
  | cons a tl ih =>
    intro f rest h
    by_cases hm : frameTextMatch a = true
    · simp only [recvLoop, hm, if_true] at h
      have ha : a = f := Option.some.inj (congrArg Prod.fst h)
      have htl : tl = rest := congrArg Prod.snd h
      subst ha
      subst htl
      exact ⟨[], rfl, by intro g hg; simp at hg, hm⟩
    · simp only [recvLoop, hm, if_false] at h
      obtain ⟨d, hd1, hd2, hd3⟩ := ih f rest h
      refine ⟨a :: d, by simp [hd1], ?_, hd3⟩
      intro g hg
      rcases List.mem_cons.mp hg with hga | hgd
      · rw [hga]; simpa using hm
      · exact hd2 g hgd

/-- Auxiliary: the value of a connected `send_request` once the read loop
stopped at a dict frame: the `error` payload decides failure, the `result`
value (empty dict default) is returned otherwise. -/
theorem send_request_eval (m : String) (p : List JVal) (hd : JVal) (st : ConnSt)
    (fs : List (String × JVal)) (rest : List JVal)
    (hws : st.ws = true) (hr : recvLoop st.incoming = (some (.obj fs), rest)) :
    (send_request m p hd st).1
      = (match jLookup fs "error" with
         | some payload => .error (.engine payload)
         | none => .ok ((jLookup fs "result").getD (.obj []))) := by
  unfold send_request
  rw [hws]
  simp only [Bool.true_eq_false, if_false]
  split
  · next heq => rw [hr] at heq; simp at heq
  · next f rst heq =>
    rw [hr] at heq
    have hf : JVal.obj fs = f := Option.some.inj (congrArg Prod.fst heq)
    subst hf
    rcases hl : jLookup fs "error" with _ | payload
    · simp [pyContains, pyGetD, hl]
    · simp [pyContains, pySubKey, hl]

/-- C4 (amended): `send_request` discards incoming frames until one whose
raw wire text contains the substring "result" or "error" (not until one
with a `result`/`error` key); when that frame parses to a dict with an
`error` key the call fails with the engine's error payload verbatim, and
when it parses to a dict without one the frame's `result` value (empty
dict when absent) is returned. -/
theorem send_request_text_correlation :
    (∀ (frames : List JVal) (f : JVal) (rest : List JVal),
        recvLoop frames = (some f, rest) →
        ∃ dropped, frames = dropped ++ f :: rest
          ∧ (∀ g ∈ dropped, frameTextMatch g = false) ∧ frameTextMatch f = true)
    ∧ (∀ (m : String) (p : List JVal) (hd : JVal) (st : ConnSt)
        (fs : List (String × JVal)) (payload : JVal) (rest : List JVal),
        st.ws = true →
        recvLoop st.incoming = (some (.obj fs), rest) →
        jLookup fs "error" = some payload →
        (send_request m p hd st).1 = .error (.engine payload))
    ∧ (∀ (m : String) (p : List JVal) (hd : JVal) (st : ConnSt)
        (fs : List (String × JVal)) (rest : List JVal),
        st.ws = true →
        recvLoop st.incoming = (some (.obj fs), rest) →
        jLookup fs "error" = none →
        (send_request m p hd st).1 = .ok ((jLookup fs "result").getD (.obj []))) := by
  refine ⟨fun frames => recvLoop_split frames, ?_, ?_⟩
  · intro m p hd st fs payload rest hws hr hl
    rw [send_request_eval m p hd st fs rest hws hr, hl]
  · intro m p hd st fs rest hws hr hl
    rw [send_request_eval m p hd st fs rest hws hr, hl]

/-- Witness for C4 (amended): a noise frame (text matches nothing) is
discarded, the following error frame stops the loop, and the call fails
with the engine's payload verbatim. -/
theorem send_request_text_correlation_witness :
    (send_request "GetDocList" [] (.num (-1))
        { ws := true, request_id := 0, incoming := [noiseFrame, errFrame], sent := [] }).1
      = .error (.engine (.str "bad request")) := by
  have hrl : recvLoop [noiseFrame, errFrame]
      = (some (.obj [("error", .str "bad request")]), []) := by
    simp only [recvLoop, frameTextMatch_noiseFrame, frameTextMatch_errFrame,
      if_true, if_false]
    rfl
  exact send_request_text_correlation.2.1 "GetDocList" [] (.num (-1))
    { ws := true, request_id := 0, incoming := [noiseFrame, errFrame], sent := [] }
    [("error", .str "bad request")] (.str "bad request") [] rfl hrl rfl

/-- Counterexample to C4 as stated: `pushFrame` contains neither a
`result` key nor an `error` key, yet the read loop does not discard it
(its raw text contains "result" inside "resulting") and the call returns
the empty dict instead of the following genuine result, which the
spec-modelled key-based loop would have selected. -/
theorem send_request_key_claim_counterexample :
    jHasKey pushFrame "result" = false
    ∧ jHasKey pushFrame "error" = false
    ∧ (send_request "GetDocList" [] (.num (-1))
        { ws := true, request_id := 0, incoming := [pushFrame, resultFrame], sent := [] }).1
      = .ok (.obj [])
    ∧ (recvLoopKeyBased [pushFrame, resultFrame]).1 = some resultFrame
    ∧ jGetD resultFrame "result" (.obj []) = .obj [("x", .num 1)]
    ∧ JVal.obj [] ≠ .obj [("x", .num 1)] := by
  have hrl : recvLoop [pushFrame, resultFrame] = (some pushFrame, [resultFrame]) := by
    simp only [recvLoop, frameTextMatch_pushFrame, if_true]
  have h3 := send_request_eval "GetDocList" [] (.num (-1))
    { ws := true, request_id := 0, incoming := [pushFrame, resultFrame], sent := [] }
    [("method", .str "push"), ("params", .str "resulting data")] [resultFrame] rfl hrl
  refine ⟨rfl, rfl, ?_, rfl, rfl, by simp⟩
  rw [h3]
  rfl

/-!
## High-level document and data operations

`send_request`'s contract towards the rest of the client is "return the
`result` payload or raise".  The document- and data-level methods are
therefore embedded over an abstract connection whose pre-correlated
per-call outcomes are consumed in order (`EngSt.script`), while every
request issued is recorded in order (`EngSt.trace`).
-/

/-- A recorded request: method, positional params, target handle. -/
structure ScriptReq where
  method : String
  params : List JVal
  handle : JVal

/-- The scripted connection state. -/
structure EngSt where
  script : List (Except Exn JVal)
  trace : List ScriptReq

/-- One `send_request` call against the scripted connection: the request
is recorded (the envelope is written before any response is read) and the
next scripted outcome is consumed; an exhausted script behaves as a
transport failure. -/
def sendScripted (method : String) (params : List JVal) (handle : JVal)
    (st : EngSt) : Except Exn JVal × EngSt :=
  match st.script with
  | [] => (.error .noResponse,
           { script := [], trace := st.trace ++ [⟨method, params, handle⟩] })
  | r :: rest => (r, { script := rest, trace := st.trace ++ [⟨method, params, handle⟩] })

/-- The number of `DestroySessionObject` requests for a given object id in
a trace. -/
def countDestroys (trace : List ScriptReq) (objId : String) : Nat :=
  (trace.filter (fun r =>
    r.method == "DestroySessionObject"
      && (match r.params with | [.str s] => s == objId | _ => false))).length

/-- `get_doc_list` (lines 154-169): returns `qDocList` when it is a list,
the empty list on a non-list payload, and the empty list when anything
raises. -/
def get_doc_list (st : EngSt) : JVal × EngSt :=
  match sendScripted "GetDocList" [] (.num (-1)) st with
  | (.error _, st1) => (.arr [], st1)
  | (.ok result, st1) =>
    match pyGetD result "qDocList" (.arr []) with
    | .error _ => (.arr [], st1)
    | .ok doc_list =>
      match doc_list with
      | .arr xs => (.arr xs, st1)
      | _ => (.arr [], st1)

/-- `get_active_doc` (lines 214-220): the call's result, `{}` on any
exception. -/
def get_active_doc (st : EngSt) : JVal × EngSt :=
  match sendScripted "GetActiveDoc" [] (.num (-1)) st with
  | (.ok result, st1) => (result, st1)
  | (.error _, st1) => (.obj [], st1)

/-- The `OpenDoc` parameter list (lines 183-186 and 235-238). -/
def openDocParams (app_id : String) (no_data : Bool) : List JVal :=
  if no_data then [.str app_id, .str "", .str "", .str "", .bool true]
  else [.str app_id]

/-- Whether a `doc.get(...)` value equals the app id string (Python `==`
between a JSON value and a `str`). -/
def jvalMatches (v : Option JVal) (s : String) : Bool :=
  match v with
  | some (.str t) => t == s
  | _ => false

/-- The mock response built from a document-list entry (lines 195-201 and
254-260). -/
def mockOpenResponse (doc : JVal) (app_id : String) : Except Exn JVal :=
  match pyGetD doc "qHandle" (.num (-1)) with
  | .error e => .error e
  | .ok h => .ok (.obj [("qReturn", .obj [("qHandle", h), ("qGenericId", .str app_id)])])

/-- The document-list scan of `open_doc` (lines 192-201): match on
`qDocId` only. -/
def scanDocsById (app_id : String) : List JVal → Except Exn (Option JVal)
  | [] => .ok none
  | doc :: rest =>
    match pyGetOpt doc "qDocId" with
    | .error e => .error e
    | .ok v =>
      if jvalMatches v app_id then
        match mockOpenResponse doc app_id with
        | .error e => .error e
        | .ok mock => .ok (some mock)
      else scanDocsById app_id rest

/-- The document-list scan of `open_doc_safe` (lines 252-260): match on
`qDocId` or `qDocName`. -/
def scanDocsSafe (app_id : String) : List JVal → Except Exn (Option JVal)
  | [] => .ok none
  | doc :: rest =>
    match pyGetOpt doc "qDocId" with
    | .error e => .error e
    | .ok v1 =>
      if jvalMatches v1 app_id then
        match mockOpenResponse doc app_id with
        | .error e => .error e
        | .ok mock => .ok (some mock)
      else
        match pyGetOpt doc "qDocName" with
        | .error e => .error e
        | .ok v2 =>
          if jvalMatches v2 app_id then
            match mockOpenResponse doc app_id with
            | .error e => .error e
            | .ok mock => .ok (some mock)
          else scanDocsSafe app_id rest

/-- `open_doc` (lines 171-204): try `OpenDoc`; on an error whose text
contains "already open" (lowercased), scan the document list for the app
id and return a mock response; on scan failure or absence re-raise the
original error. -/
def open_doc (app_id : String) (no_data : Bool) (st : EngSt) :
    Except Exn JVal × EngSt :=
  match sendScripted "OpenDoc" (openDocParams app_id no_data) (.num (-1)) st with
  | (.ok r, st1) => (.ok r, st1)
  | (.error e, st1) =>
    if containsSub (strLower (exnStr e)) "already open" then
      let (dl, st2) := get_doc_list st1
      match dl with
      | .arr docs =>
        match scanDocsById app_id docs with
        | .ok (some mock) => (.ok mock, st2)
        | _ => (.error e, st2)
      | _ => (.error e, st2)
    else (.error e, st1)

/-- The recovery block of `open_doc_safe` (lines 245-263): try
`GetActiveDoc`, then the document-list scan; an error return here makes
the caller re-raise the original exception. -/
def open_doc_safe_recover (app_id : String) (st : EngSt) :
    Except Exn JVal × EngSt :=
  let (active_doc, st1) := get_active_doc st
  match (if pyTruthy active_doc then pyContains active_doc "qReturn" else .ok false) with
  | .error e2 => (.error e2, st1)
  | .ok true => (.ok active_doc, st1)
  | .ok false =>
    let (dl, st2) := get_doc_list st1
    match dl with
    | .arr docs =>
      match scanDocsSafe app_id docs with
      | .error e2 => (.error e2, st2)
      | .ok (some mock) => (.ok mock, st2)
      | .ok none => (.error (.pyerr "recovery found no document"), st2)
    | _ => (.error (.pyerr "recovery found no document"), st2)

/-- `open_doc_safe` (lines 222-270): try `OpenDoc`; on an "already open"
error attempt recovery via `GetActiveDoc` or the document-list scan,
re-raising the original error when every recovery attempt fails; other
errors are re-raised directly. -/
def open_doc_safe (app_id : String) (no_data : Bool) (st : EngSt) :
    Except Exn JVal × EngSt :=
  match sendScripted "OpenDoc" (openDocParams app_id no_data) (.num (-1)) st with
  | (.ok r, st1) => (.ok r, st1)
  | (.error e, st1) =>
    let msg := strLower (exnStr e)
    if containsSub msg "already open" || containsSub msg "app already open" then
      match open_doc_safe_recover app_id st1 with
      | (.ok v, st2) => (.ok v, st2)
      | (.error _, st2) => (.error e, st2)
    else (.error e, st1)

/-!
## `get_table_data` (engine_api.py lines 929-1088)

The field-enumeration prefix of the method (`get_fields`, lines 934-961)
does not touch session objects and is taken as the `table_fields` input;
everything from the table-existence check on (lines 963-1088) is embedded
literally.
-/

/-- The sort block used for table-data dimensions (lines 980-990). -/
def tableSortBlock : JVal :=
  .obj [("qSortByState", .num 0), ("qSortByFrequency", .num 0),
        ("qSortByNumeric", .num 1), ("qSortByAscii", .num 1),
        ("qSortByLoadOrder", .num 1), ("qSortByExpression", .num 0),
        ("qExpression", .obj [("qv", .str "")])]

/-- The session-object definition `get_table_data` builds
(lines 974-1014). -/
def tableObjDef (table_name : String) (fields : List String) (max_rows : Int) : JVal :=
  .obj [("qInfo", .obj [("qId", .str ("table-data-" ++ table_name)),
                        ("qType", .str "HyperCube")]),
        ("qHyperCubeDef", .obj [
          ("qDimensions", .arr (fields.map (fun field => .obj [
            ("qDef", .obj [("qFieldDefs", .arr [.str field]),
                           ("qSortCriterias", .arr [tableSortBlock])]),
            ("qNullSuppression", .bool false),
            ("qIncludeElemValue", .bool true)]))),
          ("qMeasures", .arr []),
          ("qInitialDataFetch", .arr [.obj [
            ("qTop", .num 0), ("qLeft", .num 0), ("qHeight", .num max_rows),
            ("qWidth", .num fields.length)]]),
          ("qSuppressZero", .bool false),
          ("qSuppressMissing", .bool false),
          ("qMode", .str "S")])]

/-- One cell of the table decode loop (lines 1052-1061): display text
taken verbatim (default ""), numeric value only when `qNum` is present and
is not the string "NaN" (else `None`), numeric flag and selection state
with their defaults. -/
def decodeCell (cell : JVal) : Except Exn JVal :=
  match pyGetD cell "qText" (.str "") with
  | .error e => .error e
  | .ok t =>
    match pyGetOpt cell "qNum" with
    | .error e => .error e
    | .ok n1 =>
      let numeric : JVal :=
        match n1 with
        | some v => if (match v with | .str s => s == "NaN" | _ => false) then .null else v
        | none => .null
      match pyGetD cell "qIsNumeric" (.bool false) with
      | .error e => .error e
      | .ok isn =>
        match pyGetD cell "qState" (.str "O") with
        | .error e => .error e
        | .ok stt =>
          .ok (.obj [("text", t), ("numeric", numeric),
                     ("is_numeric", isn), ("state", stt)])

/-- The cell loop of one row (lines 1049-1061): `for i, cell in
enumerate(row): if i < len(headers): row_data[headers[i]] = ...`; excess
cells beyond the header list are ignored. -/
def decodeRowCells (headers : List String) :
    Nat → List (String × JVal) → List JVal → Except Exn (List (String × JVal))
  | _, acc, [] => .ok acc
  | i, acc, cell :: rest =>
    if h : i < headers.length then
      match decodeCell cell with
      | .error e => .error e
      | .ok co => decodeRowCells headers (i + 1) (dictInsert acc (headers.get ⟨i, h⟩) co) rest
    else decodeRowCells headers (i + 1) acc rest

/-- The row loop (lines 1048-1062), in engine order. -/
def decodeRows (headers : List String) : List JVal → Except Exn (List JVal)
  | [] => .ok []
  | row :: rest =>
    match pyIter row with
    | .error e => .error e
    | .ok cells =>
      match decodeRowCells headers 0 [] cells with
      | .error e => .error e
      | .ok rowDict =>
        match decodeRows headers rest with
        | .error e => .error e
        | .ok more => .ok (.obj rowDict :: more)

/-- The page loop (lines 1047-1062), in engine order. -/
def decodePagesList (headers : List String) : List JVal → Except Exn (List JVal)
  | [] => .ok []
  | page :: rest =>
    match pyGetD page "qMatrix" (.arr []) with
    | .error e => .error e
    | .ok matrix =>
      match pyIter matrix with
      | .error e => .error e
      | .ok rows =>
        match decodeRows headers rows with
        | .error e => .error e
        | .ok rs =>
          match decodePagesList headers rest with
          | .error e => .error e
          | .ok more => .ok (rs ++ more)

/-- The full decode of `qDataPages` (lines 1044-1062). -/
def decodePages (headers : List String) (pages : JVal) : Except Exn (List JVal) :=
  match pyIter pages with
  | .error e => .error e
  | .ok ps => decodePagesList headers ps

/-- Lines 1043-1073: decode the hypercube's pages and build
`result_data` (before cleanup). -/
def processHypercube (table_name : String) (headers : List String)
    (truncated : Bool) (hypercube : JVal) : Except Exn JVal :=
  match pyGetD hypercube "qDataPages" (.arr []) with
  | .error e => .error e
  | .ok pages =>
    match decodePages headers pages with
    | .error e => .error e
    | .ok table_data =>
      match pyGetD hypercube "qSize" (.obj []) with
      | .error e => .error e
      | .ok qsize =>
        match pyGetD qsize "qcy" (.num 0) with
        | .error e => .error e
        | .ok qcy =>
          match pyGetD hypercube "qDimensionInfo" (.arr []) with
          | .error e => .error e
          | .ok dimInfo =>
            .ok (.obj [("table_name", .str table_name),
                  ("headers", .arr (headers.map (fun h => .str h))),
                  ("data", .arr table_data),
                  ("total_rows", qcy),
                  ("returned_rows", .num table_data.length),
                  ("total_columns", .num headers.length),
                  ("truncated_fields", .bool truncated),
                  ("dimension_info", dimInfo)])

/-- `"qReturn" not in result or "qHandle" not in result["qReturn"]`
(lines 871 and 1020 and 1131), returned positively: `true` means a handle
path exists. -/
def checkHandle (result : JVal) : Except Exn Bool :=
  match pyContains result "qReturn" with
  | .error e => .error e
  | .ok false => .ok false
  | .ok true =>
    match pySubKey result "qReturn" with
    | .error e => .error e
    | .ok q => pyContains q "qHandle"

/-- `result["qReturn"]["qHandle"]` (lines 874, 1026, 1134). -/
def getCubeHandle (result : JVal) : Except Exn JVal :=
  match pySubKey result "qReturn" with
  | .error e => .error e
  | .ok q => pySubKey q "qHandle"

/-- `"qLayout" not in layout or "qHyperCube" not in layout["qLayout"]`
(line 1030), returned positively. -/
def checkLayoutHyperCube (layout : JVal) : Except Exn Bool :=
  match pyContains layout "qLayout" with
  | .error e => .error e
  | .ok false => .ok false
  | .ok true =>
    match pySubKey layout "qLayout" with
    | .error e => .error e
    | .ok l => pyContains l "qHyperCube"

/-- `layout["qLayout"]["qHyperCube"]` (line 1041). -/
def getHyperCube (layout : JVal) : Except Exn JVal :=
  match pySubKey layout "qLayout" with
  | .error e => .error e
  | .ok l => pySubKey l "qHyperCube"

/-- `v[k] = w` on a result dict. -/
def jInsertKey (v : JVal) (k : String) (w : JVal) : JVal :=
  match v with
  | .obj fs => .obj (dictInsert fs k w)
  | _ => v

/-- The body of `get_table_data` inside its outer `try` (lines 963-1085);
an `Except.error` outcome models an exception reaching the outer
handler. -/
def get_table_data_body (app_handle : JVal) (table_name : String)
    (table_fields : List String) (max_rows : Int) (st : EngSt) :
    Except Exn JVal × EngSt :=
  if table_fields.isEmpty then
    (.ok (.obj [("error",
      .str ("Table \x27" ++ table_name ++ "\x27 not found or has no fields"))]), st)
  else
    let fields := table_fields.take 20
    let truncated := decide (table_fields.length > 20)
    match sendScripted "CreateSessionObject"
        [tableObjDef table_name fields max_rows] app_handle st with
    | (.error e, st1) => (.error e, st1)
    | (.ok result, st1) =>
      match checkHandle result with
      | .error e => (.error e, st1)
      | .ok false =>
        (.ok (.obj [("error", .str "Failed to create hypercube for table data"),
                    ("response", result)]), st1)
      | .ok true =>
        match getCubeHandle result with
        | .error e => (.error e, st1)
        | .ok cube_handle =>
          match sendScripted "GetLayout" [] cube_handle st1 with
          | (.error e, st2) => (.error e, st2)
          | (.ok layout, st2) =>
            match checkLayoutHyperCube layout with
            | .error e => (.error e, st2)
            | .ok false =>
              let r := sendScripted "DestroySessionObject"
                [.str ("table-data-" ++ table_name)] app_handle st2
              (.ok (.obj [("error", .str "No hypercube in layout"),
                          ("layout", layout)]), r.2)
            | .ok true =>
              match getHyperCube layout with
              | .error e => (.error e, st2)
              | .ok hypercube =>
                match processHypercube table_name fields truncated hypercube with
                | .error e => (.error e, st2)
                | .ok result_data =>
                  match sendScripted "DestroySessionObject"
                      [.str ("table-data-" ++ table_name)] app_handle st2 with
                  | (.error ce, st3) =>
                    (.ok (jInsertKey result_data "cleanup_warning"
                      (.str (exnStr ce))), st3)
                  | (.ok _, st3) => (.ok result_data, st3)

/-- `get_table_data` (lines 929-1088) with the outer `except` handler
(lines 1087-1088). -/
def get_table_data (app_handle : JVal) (table_name : String)
    (table_fields : List String) (max_rows : Int) (st : EngSt) : JVal × EngSt :=
  match get_table_data_body app_handle table_name table_fields max_rows st with
  | (.ok v, st1) => (v, st1)
  | (.error e, st1) =>
    (.obj [("error", .str (exnStr e)),
           ("details", .str "Error in get_table_data method")], st1)

/-!
## `get_field_values` (engine_api.py lines 1090-1200)
-/

/-- The list-object definition `get_field_values` builds
(lines 1100-1124). -/
def listObjDef (field_name : String) (max_values : Int)
    (include_frequency : Bool) : JVal :=
  .obj [("qInfo", .obj [("qId", .str ("field-values-" ++ field_name)),
                        ("qType", .str "ListObject")]),
        ("qListObjectDef", .obj [
          ("qStateName", .str "$"),
          ("qLibraryId", .str ""),
          ("qDef", .obj [
            ("qFieldDefs", .arr [.str field_name]),
            ("qFieldLabels", .arr []),
            ("qSortCriterias", .arr [.obj [
              ("qSortByState", .num 0),
              ("qSortByFrequency", .num (if include_frequency then 1 else 0)),
              ("qSortByNumeric", .num 1),
              ("qSortByAscii", .num 1),
              ("qSortByLoadOrder", .num 0),
              ("qSortByExpression", .num 0),
              ("qExpression", .obj [("qv", .str "")])]])]),
          ("qInitialDataFetch", .arr [.obj [
            ("qTop", .num 0), ("qLeft", .num 0), ("qHeight", .num max_values),
            ("qWidth", .num 1)]])])]

/-- One value cell (lines 1158-1170): text, state, raw `qNum` (no NaN
filtering here), numeric flag, and `frequency` only when the key is
present. -/
def decodeValueCell (cell : JVal) : Except Exn JVal :=
  match pyGetD cell "qText" (.str "") with
  | .error e => .error e
  | .ok t =>
    match pyGetD cell "qState" (.str "O") with
    | .error e => .error e
    | .ok stt =>
      match pyGetOpt cell "qNum" with
      | .error e => .error e
      | .ok n1 =>
        match pyGetD cell "qIsNumeric" (.bool false) with
        | .error e => .error e
        | .ok isn =>
          let base := [("value", t), ("state", stt),
                       ("numeric_value", n1.getD .null), ("is_numeric", isn)]
          match pyContains cell "qFrequency" with
          | .error e => .error e
          | .ok true =>
            match pyGetD cell "qFrequency" (.num 0) with
            | .error e => .error e
            | .ok fr => .ok (.obj (base ++ [("frequency", fr)]))
          | .ok false => .ok (.obj base)

/-- The row loop of the list-object decode (lines 1156-1172):
`if row and len(row) > 0: cell = row[0]; ...`. -/
def decodeListRows : List JVal → Except Exn (List JVal)
  | [] => .ok []
  | row :: rest =>
    if pyTruthy row then
      match pyLen row with
      | .error e => .error e
      | .ok n =>
        if n > 0 then
          match pySubIdx row 0 with
          | .error e => .error e
          | .ok cell =>
            match decodeValueCell cell with
            | .error e => .error e
            | .ok vi =>
              match decodeListRows rest with
              | .error e => .error e
              | .ok more => .ok (vi :: more)
        else decodeListRows rest
    else decodeListRows rest

/-- The page loop of the list-object decode (lines 1155-1172). -/
def decodeListPages : List JVal → Except Exn (List JVal)
  | [] => .ok []
  | page :: rest =>
    match pyGetD page "qMatrix" (.arr []) with
    | .error e => .error e
    | .ok matrix =>
      match pyIter matrix with
      | .error e => .error e
      | .ok rows =>
        match decodeListRows rows with
        | .error e => .error e
        | .ok vs =>
          match decodeListPages rest with
          | .error e => .error e
          | .ok more => .ok (vs ++ more)

/-- `"qLayout" not in layout or "qListObject" not in layout["qLayout"]`
(line 1139), returned positively. -/
def checkLayoutListObject (layout : JVal) : Except Exn Bool :=
  match pyContains layout "qLayout" with
  | .error e => .error e
  | .ok false => .ok false
  | .ok true =>
    match pySubKey layout "qLayout" with
    | .error e => .error e
    | .ok l => pyContains l "qListObject"

/-- `layout["qLayout"]["qListObject"]` (line 1151). -/
def getListObject (layout : JVal) : Except Exn JVal :=
  match pySubKey layout "qLayout" with
  | .error e => .error e
  | .ok l => pySubKey l "qListObject"

/-- Lines 1152-1186: decode the list object's pages and build
`field_info` (before cleanup). -/
def processListObject (field_name : String) (list_handle : JVal)
    (list_object : JVal) : Except Exn JVal :=
  match pyGetD list_object "qDataPages" (.arr []) with
  | .error e => .error e
  | .ok pages =>
    match pyIter pages with
    | .error e => .error e
    | .ok ps =>
      match decodeListPages ps with
      | .error e => .error e
      | .ok values_data =>
        match pyGetD list_object "qSize" (.obj []) with
        | .error e => .error e
        | .ok qsize =>
          match pyGetD qsize "qcy" (.num 0) with
          | .error e => .error e
          | .ok qcy =>
            match pyGetD list_object "qDimensionInfo" (.obj []) with
            | .error e => .error e
            | .ok dimInfo =>
              match pyGetD list_object "qDataPages" (.arr []) with
              | .error e => .error e
              | .ok pages2 =>
                match pyLen pages2 with
                | .error e => .error e
                | .ok npages =>
                  match pyGetD list_object "qSize" (.obj []) with
                  | .error e => .error e
                  | .ok rawSize =>
                    .ok (.obj [("field_name", .str field_name),
                      ("values", .arr values_data),
                      ("total_values", qcy),
                      ("returned_count", .num values_data.length),
                      ("dimension_info", dimInfo),
                      ("debug_info", .obj [
                        ("list_handle", list_handle),
                        ("data_pages_count", .num npages),
                        ("raw_size", rawSize)])])

/-- The body of `get_field_values` inside its outer `try`
(lines 1098-1197). -/
def get_field_values_body (app_handle : JVal) (field_name : String)
    (max_values : Int) (include_frequency : Bool) (st : EngSt) :
    Except Exn JVal × EngSt :=
  match sendScripted "CreateSessionObject"
      [listObjDef field_name max_values include_frequency] app_handle st with
  | (.error e, st1) => (.error e, st1)
  | (.ok result, st1) =>
    match checkHandle result with
    | .error e => (.error e, st1)
    | .ok false =>
      (.ok (.obj [("error", .str "Failed to create session object"),
                  ("response", result)]), st1)
    | .ok true =>
      match getCubeHandle result with
      | .error e => (.error e, st1)
      | .ok list_handle =>
        match sendScripted "GetLayout" [] list_handle st1 with
        | (.error e, st2) => (.error e, st2)
        | (.ok layout, st2) =>
          match checkLayoutListObject layout with
          | .error e => (.error e, st2)
          | .ok false =>
            let r := sendScripted "DestroySessionObject"
              [.str ("field-values-" ++ field_name)] app_handle st2
            (.ok (.obj [("error", .str "No list object in layout"),
                        ("layout", layout)]), r.2)
          | .ok true =>
            match getListObject layout with
            | .error e => (.error e, st2)
            | .ok list_object =>
              match processListObject field_name list_handle list_object with
              | .error e => (.error e, st2)
              | .ok field_info =>
                match sendScripted "DestroySessionObject"
                    [.str ("field-values-" ++ field_name)] app_handle st2 with
                | (.error ce, st3) =>
                  (.ok (jInsertKey field_info "cleanup_warning"
                    (.str (exnStr ce))), st3)
                | (.ok _, st3) => (.ok field_info, st3)

/-- `get_field_values` (lines 1090-1200) with the outer `except` handler
(lines 1199-1200). -/
def get_field_values (app_handle : JVal) (field_name : String)
    (max_values : Int) (include_frequency : Bool) (st : EngSt) : JVal × EngSt :=
  match get_field_values_body app_handle field_name max_values include_frequency st with
  | (.ok v, st1) => (v, st1)
  | (.error e, st1) =>
    (.obj [("error", .str (exnStr e)),
           ("details", .str "Error in get_field_values method")], st1)

/-- Auxiliary: a scripted call consumes the head outcome. -/
theorem sendScripted_cons (m : String) (p : List JVal) (h : JVal) (st : EngSt)
    (r : Except Exn JVal) (rest : List (Except Exn JVal)) (hs : st.script = r :: rest) :
    sendScripted m p h st
      = (r, { script := rest, trace := st.trace ++ [⟨m, p, h⟩] }) := by
  unfold sendScripted
  rw [hs]

/-- Auxiliary: every scripted call appends exactly its own request to the
trace. -/
theorem sendScripted_trace (m : String) (p : List JVal) (h : JVal) (st : EngSt) :
    ((sendScripted m p h st).2).trace = st.trace ++ [⟨m, p, h⟩] := by
  rcases st with ⟨script, trace⟩
  cases script <;> rfl

/-- Auxiliary: `countDestroys` distributes over trace concatenation. -/
theorem countDestroys_append (t1 t2 : List ScriptReq) (objId : String) :
    countDestroys (t1 ++ t2) objId = countDestroys t1 objId + countDestroys t2 objId := by
  unfold countDestroys
  rw [List.filter_append, List.length_append]

/-- C9: `get_doc_list` is total over failures: it always returns a list;
an exception from the underlying call yields the empty list, a non-list
`qDocList` payload yields the empty list, and a list payload is returned
as-is — so `get_doc_list` never raises and never returns a non-list
value. -/
theorem get_doc_list_total :
    (∀ st : EngSt, ∃ xs : List JVal, (get_doc_list st).1 = .arr xs)
    ∧ (∀ (st : EngSt) (e : Exn) (rest : List (Except Exn JVal)),
        st.script = .error e :: rest → (get_doc_list st).1 = .arr [])
    ∧ (∀ (st : EngSt) (r v : JVal) (rest : List (Except Exn JVal)),
        st.script = .ok r :: rest → pyGetD r "qDocList" (.arr []) = .ok v →
        isArrJ v = false → (get_doc_list st).1 = .arr [])
    ∧ (∀ (st : EngSt) (r : JVal) (xs : List JVal) (rest : List (Except Exn JVal)),
        st.script = .ok r :: rest → pyGetD r "qDocList" (.arr []) = .ok (.arr xs) →
        (get_doc_list st).1 = .arr xs) := by
  refine ⟨?_, ?_, ?_, ?_⟩
  · intro st
    unfold get_doc_list
    rcases h1 : sendScripted "GetDocList" [] (.num (-1)) st with ⟨r, st1⟩
    cases r with
    | error e => exact ⟨[], rfl⟩
    | ok result =>
      dsimp only
      cases h2 : pyGetD result "qDocList" (.arr []) with
      | error e => exact ⟨[], rfl⟩
      | ok dl =>
        cases dl with
        | arr xs => exact ⟨xs, rfl⟩
        | null => exact ⟨[], rfl⟩
        | bool b => exact ⟨[], rfl⟩
        | num n => exact ⟨[], rfl⟩
        | str s => exact ⟨[], rfl⟩
        | obj fs => exact ⟨[], rfl⟩
  · intro st e rest hs
    unfold get_doc_list
    rw [sendScripted_cons _ _ _ _ _ _ hs]
  · intro st r v rest hs hg hv
    unfold get_doc_list
    rw [sendScripted_cons _ _ _ _ _ _ hs]
    dsimp only
    rw [hg]
    cases v with
    | arr xs => simp [isArrJ] at hv
    | null => rfl
    | bool b => rfl
    | num n => rfl
    | str s => rfl
    | obj fs => rfl
  · intro st r xs rest hs hg
    unfold get_doc_list
    rw [sendScripted_cons _ _ _ _ _ _ hs]
    dsimp only
    rw [hg]

/-- Witness for C9: a failing call yields `[]`, and a non-list `qDocList`
payload yields `[]`. -/
theorem get_doc_list_total_witness :
    (get_doc_list { script := [.error .noResponse], trace := [] }).1 = .arr []
    ∧ (get_doc_list { script := [.ok (.obj [("qDocList", .num 5)])], trace := [] }).1
      = .arr [] := by
  have h := get_doc_list_total
  exact ⟨h.2.1 _ .noResponse [] rfl, h.2.2.1 _ _ (.num 5) [] rfl rfl rfl⟩

/-- Auxiliary: `get_doc_list` when the call succeeds with a list
payload. -/
theorem get_doc_list_eval (st : EngSt) (r : JVal) (rest : List (Except Exn JVal))
    (hs : st.script = .ok r :: rest) (xs : List JVal)
    (hg : pyGetD r "qDocList" (.arr []) = .ok (.arr xs)) :
    get_doc_list st = (.arr xs, { script := rest, trace := st.trace ++ [⟨"GetDocList", [], .num (-1)⟩] }) := by
  unfold get_doc_list
  rw [sendScripted_cons _ _ _ _ _ _ hs]
  dsimp only
  rw [hg]

/-- Auxiliary: `get_doc_list` when the call raises. -/
theorem get_doc_list_error (st : EngSt) (e : Exn) (rest : List (Except Exn JVal))
    (hs : st.script = .error e :: rest) :
    get_doc_list st = (.arr [], { script := rest, trace := st.trace ++ [⟨"GetDocList", [], .num (-1)⟩] }) := by
  unfold get_doc_list
  rw [sendScripted_cons _ _ _ _ _ _ hs]

/-- Auxiliary: the recovery block succeeds via `GetActiveDoc` when the
active document is truthy and carries a `qReturn` key. -/
theorem open_doc_safe_recover_active (app_id : String) (st : EngSt)
    (active : JVal) (rest : List (Except Exn JVal))
    (hs : st.script = .ok active :: rest) (hobj : isObjJ active = true)
    (htr : pyTruthy active = true) (hkey : jHasKey active "qReturn" = true) :
    open_doc_safe_recover app_id st = (.ok active, { script := rest, trace := st.trace ++ [⟨"GetActiveDoc", [], .num (-1)⟩] }) := by
  unfold open_doc_safe_recover get_active_doc
  rw [sendScripted_cons _ _ _ _ _ _ hs]
  dsimp only
  rw [htr]
  cases active with
  | obj fs =>
    have hk : (jLookup fs "qReturn").isSome = true := hkey
    simp [pyContains, hk]
  | null => simp [isObjJ] at hobj
  | bool b => simp [isObjJ] at hobj
  | num n => simp [isObjJ] at hobj
  | str s => simp [isObjJ] at hobj
  | arr xs => simp [isObjJ] at hobj

/-- Auxiliary: the recovery block succeeds via the document-list scan when
`GetActiveDoc` raised and the scan finds a matching document. -/
theorem open_doc_safe_recover_scan (app_id : String) (st : EngSt) (e2 : Exn)
    (dlr mock : JVal) (docs : List JVal) (rest : List (Except Exn JVal))
    (hs : st.script = .error e2 :: .ok dlr :: rest)
    (hdl : pyGetD dlr "qDocList" (.arr []) = .ok (.arr docs))
    (hscan : scanDocsSafe app_id docs = .ok (some mock)) :
    (open_doc_safe_recover app_id st).1 = .ok mock := by
  unfold open_doc_safe_recover get_active_doc
  rw [sendScripted_cons _ _ _ _ _ _ hs]
  dsimp only
  simp only [pyTruthy, List.isEmpty_nil, Bool.not_true]
  rw [if_neg (by simp)]
  dsimp only
  rw [get_doc_list_eval _ dlr rest rfl docs hdl]
  dsimp only
  rw [hscan]

/-- Auxiliary: the recovery block fails when `GetActiveDoc` and
`GetDocList` both raise (the empty scan finds nothing). -/
theorem open_doc_safe_recover_fails (app_id : String) (st : EngSt) (e2 e3 : Exn)
    (rest : List (Except Exn JVal))
    (hs : st.script = .error e2 :: .error e3 :: rest) :
    (open_doc_safe_recover app_id st).1 = .error (.pyerr "recovery found no document") := by
  unfold open_doc_safe_recover get_active_doc
  rw [sendScripted_cons _ _ _ _ _ _ hs]
  dsimp only
  simp only [pyTruthy, List.isEmpty_nil, Bool.not_true]
  rw [if_neg (by simp)]
  dsimp only
  rw [get_doc_list_error _ e3 rest rfl]
  rfl

/-- C8: when `OpenDoc` fails with an "already open" error, `open_doc_safe`
does not surface that failure directly: it returns the `GetActiveDoc`
response when one carrying `qReturn` is available, else a mock response
built from the document-list entry matching the app id, and re-raises the
original error only when every recovery attempt fails. -/
theorem open_doc_safe_already_open_recovery :
    (∀ (app_id : String) (no_data : Bool) (st : EngSt) (e : Exn)
        (active : JVal) (rest : List (Except Exn JVal)),
        st.script = .error e :: .ok active :: rest →
        containsSub (strLower (exnStr e)) "already open" = true →
        isObjJ active = true → pyTruthy active = true →
        jHasKey active "qReturn" = true →
        (open_doc_safe app_id no_data st).1 = .ok active)
    ∧ (∀ (app_id : String) (no_data : Bool) (st : EngSt) (e e2 : Exn)
        (dlr mock : JVal) (docs : List JVal) (rest : List (Except Exn JVal)),
        st.script = .error e :: .error e2 :: .ok dlr :: rest →
        containsSub (strLower (exnStr e)) "already open" = true →
        pyGetD dlr "qDocList" (.arr []) = .ok (.arr docs) →
        scanDocsSafe app_id docs = .ok (some mock) →
        (open_doc_safe app_id no_data st).1 = .ok mock)
    ∧ (∀ (app_id : String) (no_data : Bool) (st : EngSt) (e e2 e3 : Exn)
        (rest : List (Except Exn JVal)),
        st.script = .error e :: .error e2 :: .error e3 :: rest →
        containsSub (strLower (exnStr e)) "already open" = true →
        (open_doc_safe app_id no_data st).1 = .error e) := by
  refine ⟨?_, ?_, ?_⟩
  · intro app_id no_data st e active rest hs halready hobj htr hkey
    unfold open_doc_safe
    rw [sendScripted_cons _ _ _ _ _ _ hs]
    simp only [halready, Bool.true_or, if_true]
    rw [open_doc_safe_recover_active app_id _ active rest rfl hobj htr hkey]
  · intro app_id no_data st e e2 dlr mock docs rest hs halready hdl hscan
    unfold open_doc_safe
    rw [sendScripted_cons _ _ _ _ _ _ hs]
    simp only [halready, Bool.true_or, if_true]
    have hrec := open_doc_safe_recover_scan app_id
      { script := .error e2 :: .ok dlr :: rest,
        trace := st.trace ++ [⟨"OpenDoc", openDocParams app_id no_data, .num (-1)⟩] }
      e2 dlr mock docs rest rfl hdl hscan
    rcases hr : open_doc_safe_recover app_id
      { script := .error e2 :: .ok dlr :: rest,
        trace := st.trace ++ [⟨"OpenDoc", openDocParams app_id no_data, .num (-1)⟩] }
      with ⟨rv, st2⟩
    rw [hr] at hrec
    cases rv with
    | ok v => cases hrec; rfl
    | error ee => simp at hrec
  · intro app_id no_data st e e2 e3 rest hs halready
    unfold open_doc_safe
    rw [sendScripted_cons _ _ _ _ _ _ hs]
    simp only [halready, Bool.true_or, if_true]
    have hrec := open_doc_safe_recover_fails app_id
      { script := .error e2 :: .error e3 :: rest,
        trace := st.trace ++ [⟨"OpenDoc", openDocParams app_id no_data, .num (-1)⟩] }
      e2 e3 rest rfl
    rcases hr : open_doc_safe_recover app_id
      { script := .error e2 :: .error e3 :: rest,
        trace := st.trace ++ [⟨"OpenDoc", openDocParams app_id no_data, .num (-1)⟩] }
      with ⟨rv, st2⟩
    rw [hr] at hrec
    cases rv with
    | ok v => simp at hrec
    | error ee => rfl

/-- Witness for C8: a second open of an already-open document recovers the
active document's handle instead of raising (spec scenario C). -/
theorem open_doc_safe_already_open_recovery_witness :
    (open_doc_safe "X" true
        { script := [.error (.engine (.str "App already open")),
                     .ok (.obj [("qReturn", .obj [("qHandle", .num 3)])])],
          trace := [] }).1
      = .ok (.obj [("qReturn", .obj [("qHandle", .num 3)])]) := by
  exact open_doc_safe_already_open_recovery.1 "X" true _
    (.engine (.str "App already open"))
    (.obj [("qReturn", .obj [("qHandle", .num 3)])]) [] rfl (by decide) rfl rfl rfl

/-!
## Result decoder characterization (claims about `get_table_data`'s decode)
-/

/-- The "NaN" sentinel test the decoder applies to `qNum`. -/
def isNaNStr : JVal → Bool
  | .str s => s == "NaN"
  | _ => false

/-- Modelled from the spec's words (§4.4): the numeric value of a cell is
taken only if present and not the NaN sentinel; otherwise it is null. -/
def specCellNumeric (cell : JVal) : JVal :=
  match cell with
  | .obj fs =>
    match jLookup fs "qNum" with
    | some v => if isNaNStr v then .null else v
    | none => .null
  | _ => .null

/-- Modelled from the spec's words (§4.4): the decoded record of one cell
(display text verbatim with empty default, numeric per
`specCellNumeric`). -/
def specCellDecode (cell : JVal) : JVal :=
  .obj [("text", jGetD cell "qText" (.str "")),
        ("numeric", specCellNumeric cell),
        ("is_numeric", jGetD cell "qIsNumeric" (.bool false)),
        ("state", jGetD cell "qState" (.str "O"))]

/-- Modelled from the spec's words (§4.4): positional decoding of one row
against the field-name list — the i-th cell maps to the i-th name, excess
cells are ignored (the zip truncates), entries land in a Python dict. -/
def specRowDecode (headers : List String) (row : List JVal) : JVal :=
  .obj (List.foldl (fun acc p => dictInsert acc p.1 p.2) []
    ((headers.zip row).map (fun p => (p.1, specCellDecode p.2))))

/-- A well-typed page matrix embedded as the engine's `qDataPages`
value. -/
def pagesJVal (m : List (List (List JVal))) : JVal :=
  .arr (m.map (fun p => .obj [("qMatrix", .arr (p.map (fun r => .arr r)))]))

/-- Auxiliary: on a dict cell the decode loop's cell record is exactly the
spec's. -/
theorem decodeCell_obj (c : JVal) (hc : isObjJ c = true) :
    decodeCell c = .ok (specCellDecode c) := by
  cases c with
  | obj fs =>
    simp only [decodeCell, specCellDecode, specCellNumeric, isNaNStr,
      pyGetD, pyGetOpt, jGetD]
  | null => simp [isObjJ] at hc
  | bool b => simp [isObjJ] at hc
  | num n => simp [isObjJ] at hc
  | str s => simp [isObjJ] at hc
  | arr xs => simp [isObjJ] at hc

/-- Auxiliary: the indexed cell loop equals a zip against the headers
dropped to the current index. -/
theorem decodeRowCells_zip (headers : List String) (row : List JVal) :
    ∀ (i : Nat) (acc : List (String × JVal)),
      (∀ c ∈ row, isObjJ c = true) →
      decodeRowCells headers i acc row
        = .ok (List.foldl (fun a p => dictInsert a p.1 p.2) acc
            (((headers.drop i).zip row).map (fun p => (p.1, specCellDecode p.2)))) := by
  induction row with
  | nil => intro i acc _; simp [decodeRowCells]
  | cons c rest ih =>
    intro i acc hobj
    have hc := hobj c (List.mem_cons_self c rest)
    have hrest : ∀ x ∈ rest, isObjJ x = true :=
      fun x hx => hobj x (List.mem_cons_of_mem c hx)
    by_cases h : i < headers.length
    · rw [decodeRowCells, dif_pos h, decodeCell_obj c hc]
      dsimp only
      rw [ih (i + 1) _ hrest]
      rw [List.drop_eq_getElem_cons h, List.zip_cons_cons, List.map_cons,
        List.foldl_cons]
      rw [List.get_eq_getElem]
    · rw [decodeRowCells, dif_neg h, ih (i + 1) _ hrest]
      have hle : headers.length ≤ i := Nat.le_of_not_lt h
      rw [List.drop_eq_nil_of_le hle, List.drop_eq_nil_of_le (Nat.le_succ_of_le hle)]
      rfl

/-- Auxiliary: the row loop maps the spec's row decode over the rows in
order. -/
theorem decodeRows_map (headers : List String) (rows : List (List JVal))
    (hobj : ∀ r ∈ rows, ∀ c ∈ r, isObjJ c = true) :
    decodeRows headers (rows.map (fun r => .arr r))
      = .ok (rows.map (fun r => specRowDecode headers r)) := by
  induction rows with
  | nil => rfl
  | cons r rest ih =>
    have h1 : ∀ c ∈ r, isObjJ c = true := hobj r (List.mem_cons_self r rest)
    have h2 : ∀ x ∈ rest, ∀ c ∈ x, isObjJ c = true :=
      fun x hx => hobj x (List.mem_cons_of_mem r hx)
    simp only [List.map_cons, decodeRows]
    dsimp [pyIter]
    rw [decodeRowCells_zip headers r 0 [] h1]
    dsimp only
    rw [ih h2]
    rfl

/-- Auxiliary: the page loop concatenates the decoded rows of every page
in engine order. -/
theorem decodePagesList_map (headers : List String)
    (m : List (List (List JVal)))
    (hw : ∀ p ∈ m, ∀ r ∈ p, ∀ c ∈ r, isObjJ c = true) :
    decodePagesList headers
        (m.map (fun p => .obj [("qMatrix", .arr (p.map (fun r => .arr r)))]))
      = .ok ((m.flatMap id).map (specRowDecode headers)) := by
  induction m with
  | nil => rfl
  | cons p rest ih =>
    have h1 : ∀ r ∈ p, ∀ c ∈ r, isObjJ c = true := hw p (List.mem_cons_self p rest)
    have h2 : ∀ x ∈ rest, ∀ r ∈ x, ∀ c ∈ r, isObjJ c = true :=
      fun x hx => hw x (List.mem_cons_of_mem p hx)
    simp only [List.map_cons, decodePagesList]
    simp only [pyGetD, jLookup, if_pos rfl, Option.getD_some]
    dsimp [pyIter]
    rw [decodeRows_map headers p h1]
    dsimp only
    rw [ih h2]
    dsimp only
    rw [List.flatMap_cons, List.map_append]
    rfl

/-- Auxiliary: the full decode of a well-typed page structure. -/
theorem decodePages_map (headers : List String) (m : List (List (List JVal)))
    (hw : ∀ p ∈ m, ∀ r ∈ p, ∀ c ∈ r, isObjJ c = true) :
    decodePages headers (pagesJVal m)
      = .ok ((m.flatMap id).map (specRowDecode headers)) := by
  unfold decodePages pagesJVal
  dsimp [pyIter]
  exact decodePagesList_map headers m hw

/-- C6: the decoder maps the i-th cell to the i-th field name positionally
(a zip, so excess cells beyond the field-name list are ignored), emits the
rows in engine order (pages then rows, flattened in order), records the
numeric value only when `qNum` is present and is not the "NaN" sentinel
(null otherwise), and copies the display text `qText` verbatim. -/
theorem decode_cells_positional (headers : List String)
    (m : List (List (List JVal)))
    (hw : ∀ p ∈ m, ∀ r ∈ p, ∀ c ∈ r, isObjJ c = true) :
    decodePages headers (pagesJVal m)
      = .ok ((m.flatMap id).map (specRowDecode headers))
    ∧ (∀ c : JVal, isObjJ c = true → decodeCell c = .ok (specCellDecode c))
    ∧ (∀ (fs : List (String × JVal)) (v : JVal), jLookup fs "qText" = some v →
        jGetD (specCellDecode (.obj fs)) "text" .null = v)
    ∧ (∀ (fs : List (String × JVal)) (v : JVal), jLookup fs "qNum" = some v →
        isNaNStr v = false → jGetD (specCellDecode (.obj fs)) "numeric" .null = v)
    ∧ (∀ fs : List (String × JVal), jLookup fs "qNum" = none →
        jGetD (specCellDecode (.obj fs)) "numeric" .null = .null)
    ∧ (∀ fs : List (String × JVal), jLookup fs "qNum" = some (.str "NaN") →
        jGetD (specCellDecode (.obj fs)) "numeric" .null = .null) := by
  refine ⟨decodePages_map headers m hw, decodeCell_obj, ?_, ?_, ?_, ?_⟩
  · intro fs v h
    simp [specCellDecode, jGetD, jLookup, h]
  · intro fs v h hn
    simp [specCellDecode, specCellNumeric, jGetD, jLookup, h, hn]
  · intro fs h
    simp [specCellDecode, specCellNumeric, jGetD, jLookup, h]
  · intro fs h
    simp [specCellDecode, specCellNumeric, jGetD, jLookup, h, isNaNStr]

/-- Witness for C6 (spec scenario A, with a NaN sentinel in the first
column): the decoder yields the two rows in order with text verbatim and
numeric null for the sentinel. -/
theorem decode_cells_positional_witness :
    decodePages ["Country", "Sum"]
        (pagesJVal [[[.obj [("qText", .str "US"), ("qNum", .str "NaN")],
                      .obj [("qText", .str "100"), ("qNum", .num 100),
                            ("qIsNumeric", .bool true)]],
                     [.obj [("qText", .str "FR")],
                      .obj [("qText", .str "50"), ("qNum", .num 50),
                            ("qIsNumeric", .bool true)]]]])
      = .ok [
        .obj [("Country", .obj [("text", .str "US"), ("numeric", .null),
                ("is_numeric", .bool false), ("state", .str "O")]),
              ("Sum", .obj [("text", .str "100"), ("numeric", .num 100),
                ("is_numeric", .bool true), ("state", .str "O")])],
        .obj [("Country", .obj [("text", .str "FR"), ("numeric", .null),
                ("is_numeric", .bool false), ("state", .str "O")]),
              ("Sum", .obj [("text", .str "50"), ("numeric", .num 50),
                ("is_numeric", .bool true), ("state", .str "O")])]] := by
  have h := (decode_cells_positional ["Country", "Sum"]
    [[[.obj [("qText", .str "US"), ("qNum", .str "NaN")],
       .obj [("qText", .str "100"), ("qNum", .num 100), ("qIsNumeric", .bool true)]],
      [.obj [("qText", .str "FR")],
       .obj [("qText", .str "50"), ("qNum", .num 50), ("qIsNumeric", .bool true)]]]]
    (by decide)).1
  rw [h]
  rfl

/-- Auxiliary: inserting a fresh key appends it. -/
theorem dictInsert_fresh (acc : List (String × JVal)) (k : String) (v : JVal)
    (hfresh : ∀ q ∈ acc, q.1 ≠ k) : dictInsert acc k v = acc ++ [(k, v)] := by
  induction acc with
  | nil => rfl
  | cons q rest ih =>
    obtain ⟨k2, w⟩ := q
    have hq : k2 ≠ k := hfresh (k2, w) (List.mem_cons_self _ _)
    rw [dictInsert, if_neg hq, ih (fun q hq2 => hfresh q (List.mem_cons_of_mem _ hq2))]
    rfl

/-- Auxiliary: folding `dictInsert` over pairs whose keys are fresh and
mutually distinct appends the keys in order. -/
theorem foldl_dictInsert_keys (pairs : List (String × JVal)) :
    ∀ acc : List (String × JVal),
      (pairs.map Prod.fst).Nodup →
      (∀ p ∈ pairs, ∀ q ∈ acc, q.1 ≠ p.1) →
      (List.foldl (fun a p => dictInsert a p.1 p.2) acc pairs).map Prod.fst
        = acc.map Prod.fst ++ pairs.map Prod.fst := by
  induction pairs with
  | nil => intro acc _ _; simp
  | cons p rest ih =>
    intro acc hnd hdisj
    simp only [List.foldl_cons]
    rw [dictInsert_fresh acc p.1 p.2
      (fun q hq => hdisj p (List.mem_cons_self _ _) q hq)]
    rw [List.map_cons] at hnd
    have hnd2 : (rest.map Prod.fst).Nodup := (List.nodup_cons.mp hnd).2
    have hhead : p.1 ∉ rest.map Prod.fst := (List.nodup_cons.mp hnd).1
    rw [ih (acc ++ [(p.1, p.2)]) hnd2 ?_]
    · simp
    · intro x hx q hq
      rcases List.mem_append.mp hq with hq1 | hq2
      · exact hdisj x (List.mem_cons_of_mem _ hx) q hq1
      · have : q = (p.1, p.2) := by simpa using hq2
        rw [this]
        intro hcon
        exact hhead (hcon ▸ List.mem_map_of_mem Prod.fst hx)

/-- Auxiliary: the keys of a spec-decoded row are exactly the field list,
in order, when the fields are distinct and the row is at least as wide. -/
theorem specRowDecode_keys (fields : List String) (row : List JVal)
    (hnd : fields.Nodup) (hlen : fields.length ≤ row.length) :
    jKeys (specRowDecode fields row) = fields := by
  have hkeys : (((fields.zip row).map (fun p => (p.1, specCellDecode p.2))).map
      Prod.fst) = fields := by
    rw [List.map_map]
    have hcomp : (Prod.fst ∘ fun p : String × JVal => (p.1, specCellDecode p.2))
        = Prod.fst := rfl
    rw [hcomp, List.map_fst_zip fields row hlen]
  unfold specRowDecode jKeys
  dsimp only
  show (List.foldl (fun a p => dictInsert a p.1 p.2) []
      ((fields.zip row).map (fun p => (p.1, specCellDecode p.2)))).map Prod.fst = fields
  rw [foldl_dictInsert_keys _ [] (by rw [hkeys]; exact hnd)
    (by intro p hp q hq; simp at hq)]
  simpa using hkeys

/-- C7 (amended): for every duplicate-free list of field names, the table
query built from it requests exactly that many columns, and decoding any
engine matrix whose rows carry at least that many cells against the same
field list yields rows whose keys are exactly that field list, in the same
order, for every row. -/
theorem table_roundtrip_keys (fields : List String) (hnd : fields.Nodup)
    (m : List (List (List JVal)))
    (hw : ∀ p ∈ m, ∀ r ∈ p, ∀ c ∈ r, isObjJ c = true)
    (hlen : ∀ p ∈ m, ∀ r ∈ p, r.length = fields.length) :
    (∀ (tn : String) (mr : Int),
        jGetD (jGetD (tableObjDef tn fields mr) "qHyperCubeDef" .null)
            "qInitialDataFetch" .null
          = .arr [.obj [("qTop", .num 0), ("qLeft", .num 0),
              ("qHeight", .num mr), ("qWidth", .num fields.length)]])
    ∧ decodePages fields (pagesJVal m)
      = .ok ((m.flatMap id).map (specRowDecode fields))
    ∧ (∀ row ∈ m.flatMap id, jKeys (specRowDecode fields row) = fields) := by
  refine ⟨fun tn mr => rfl, decodePages_map fields m hw, ?_⟩
  intro row hrow
  obtain ⟨p, hp, hr⟩ := List.mem_flatMap.mp hrow
  exact specRowDecode_keys fields row hnd (Nat.le_of_eq (hlen p hp row hr).symm)

/-- Witness for C7 (amended): distinct fields ["a", "b"], a one-row
matrix of matching width; the decoded row's keys are exactly
["a", "b"]. -/
theorem table_roundtrip_keys_witness :
    decodePages ["a", "b"]
        (pagesJVal [[[.obj [("qText", .str "x")], .obj [("qText", .str "y")]]]])
      = .ok [.obj [("a", .obj [("text", .str "x"), ("numeric", .null),
                ("is_numeric", .bool false), ("state", .str "O")]),
              ("b", .obj [("text", .str "y"), ("numeric", .null),
                ("is_numeric", .bool false), ("state", .str "O")])]]
    ∧ jKeys (specRowDecode ["a", "b"]
        [.obj [("qText", .str "x")], .obj [("qText", .str "y")]]) = ["a", "b"] := by
  have h := table_roundtrip_keys ["a", "b"] (by decide)
    [[[.obj [("qText", .str "x")], .obj [("qText", .str "y")]]]]
    (by decide) (by decide)
  refine ⟨?_, h.2.2 _ (by simp)⟩
  rw [h.2.1]
  rfl

/-- Counterexample to C7 as stated: with the duplicated field list
["a", "a"] the built query requests two columns and the engine row carries
two cells, yet the decoded row's keys are ["a"], not ["a", "a"] — the
Python dict collapses the duplicate, so the keys are not "exactly that
field list". -/
theorem table_roundtrip_counterexample :
    jGetD (jGetD (tableObjDef "T" ["a", "a"] 10) "qHyperCubeDef" .null)
        "qInitialDataFetch" .null
      = .arr [.obj [("qTop", .num 0), ("qLeft", .num 0), ("qHeight", .num 10),
          ("qWidth", .num 2)]]
    ∧ decodePages ["a", "a"]
        (pagesJVal [[[.obj [("qText", .str "1")], .obj [("qText", .str "2")]]]])
      = .ok [.obj [("a", .obj [("text", .str "2"), ("numeric", .null),
          ("is_numeric", .bool false), ("state", .str "O")])]]
    ∧ jKeys (.obj [("a", .obj [("text", .str "2"), ("numeric", .null),
        ("is_numeric", .bool false), ("state", .str "O")])]) = ["a"]
    ∧ ["a"] ≠ ["a", "a"] :=
  ⟨rfl, rfl, rfl, by decide⟩

/-!
## Session-object lifecycle (claim about destroy calls)
-/

/-- Auxiliary: a request whose method is not `DestroySessionObject`
contributes nothing to the destroy count. -/
theorem countDestroys_other (r : ScriptReq) (objId : String)
    (h : (r.method == "DestroySessionObject") = false) :
    countDestroys [r] objId = 0 := by
  simp [countDestroys, List.filter, h]

/-- Auxiliary: a destroy request for the object's own id counts once. -/
theorem countDestroys_self_destroy (s : String) (h : JVal) :
    countDestroys [⟨"DestroySessionObject", [.str s], h⟩] s = 1 := by
  simp [countDestroys, List.filter]

/-- Auxiliary (C1 "never more than one", `get_table_data`): over every
script whatsoever, at most one `DestroySessionObject` for the table's
object id is ever issued in one `get_table_data` run. -/
theorem get_table_data_destroys_le_one (app : JVal) (tn : String)
    (fields : List String) (mr : Int) (script : List (Except Exn JVal)) :
    countDestroys ((get_table_data app tn fields mr
      { script := script, trace := [] }).2).trace ("table-data-" ++ tn) ≤ 1 := by
  unfold get_table_data get_table_data_body
  by_cases hemp : fields.isEmpty = true
  · simp only [hemp, if_true]
    simp [countDestroys]
  · rw [if_neg hemp]
    dsimp only
    rcases h1 : sendScripted "CreateSessionObject"
        [tableObjDef tn (fields.take 20) mr] app { script := script, trace := [] }
      with ⟨r1, st1⟩
    have ht1 : st1.trace = [⟨"CreateSessionObject",
        [tableObjDef tn (fields.take 20) mr], app⟩] := by
      have h := sendScripted_trace "CreateSessionObject"
        [tableObjDef tn (fields.take 20) mr] app { script := script, trace := [] }
      rw [h1] at h
      simp only [List.nil_append] at h
      exact h
    have hc1 : countDestroys st1.trace ("table-data-" ++ tn) = 0 := by
      rw [ht1]; rfl
    cases r1 with
    | error e => simp [hc1]
    | ok result =>
      dsimp only
      rcases h2 : checkHandle result with e2 | b
      · simp [hc1]
      · cases b with
        | false => simp [hc1]
        | true =>
          dsimp only
          rcases h3 : getCubeHandle result with e3 | ch
          · simp [hc1]
          · dsimp only
            rcases h4 : sendScripted "GetLayout" [] ch st1 with ⟨r2, st2⟩
            have ht2 : st2.trace = st1.trace ++ [⟨"GetLayout", [], ch⟩] := by
              have h := sendScripted_trace "GetLayout" [] ch st1
              rw [h4] at h
              exact h
            have hc2 : countDestroys st2.trace ("table-data-" ++ tn) = 0 := by
              rw [ht2, countDestroys_append, hc1]
              rfl
            cases r2 with
            | error e => simp [hc2]
            | ok layout =>
              dsimp only
              rcases h5 : checkLayoutHyperCube layout with e5 | b5
              · simp [hc2]
              · cases b5 with
                | false =>
                  dsimp only
                  rw [sendScripted_trace, countDestroys_append, hc2,
                    countDestroys_self_destroy]
                | true =>
                  dsimp only
                  rcases h6 : getHyperCube layout with e6 | hc
                  · simp [hc2]
                  · dsimp only
                    rcases h7 : processHypercube tn (fields.take 20)
                        (decide (fields.length > 20)) hc with e7 | rd
                    · simp [hc2]
                    · dsimp only
                      rcases h8 : sendScripted "DestroySessionObject"
                          [.str ("table-data-" ++ tn)] app st2 with ⟨r3, st3⟩
                      have ht3 : st3.trace = st2.trace ++
                          [⟨"DestroySessionObject",
                            [.str ("table-data-" ++ tn)], app⟩] := by
                        have h := sendScripted_trace "DestroySessionObject"
                          [.str ("table-data-" ++ tn)] app st2
                        rw [h8] at h
                        exact h
                      have hc3 : countDestroys st3.trace ("table-data-" ++ tn) = 1 := by
                        rw [ht3, countDestroys_append, hc2,
                          countDestroys_self_destroy]
                      cases r3 with
                      | error ce => simp [hc3]
                      | ok d => simp [hc3]

/-- Auxiliary (C1 "never more than one", `get_field_values`): over every
script whatsoever, at most one `DestroySessionObject` for the field
object's id is ever issued in one `get_field_values` run. -/
theorem get_field_values_destroys_le_one (app : JVal) (fn : String)
    (mv : Int) (incf : Bool) (script : List (Except Exn JVal)) :
    countDestroys ((get_field_values app fn mv incf
      { script := script, trace := [] }).2).trace ("field-values-" ++ fn) ≤ 1 := by
  unfold get_field_values get_field_values_body
  rcases h1 : sendScripted "CreateSessionObject" [listObjDef fn mv incf] app
      { script := script, trace := [] } with ⟨r1, st1⟩
  have ht1 : st1.trace = [⟨"CreateSessionObject", [listObjDef fn mv incf], app⟩] := by
    have h := sendScripted_trace "CreateSessionObject" [listObjDef fn mv incf] app
      { script := script, trace := [] }
    rw [h1] at h
    simp only [List.nil_append] at h
    exact h
  have hc1 : countDestroys st1.trace ("field-values-" ++ fn) = 0 := by
    rw [ht1]; rfl
  cases r1 with
  | error e => simp [hc1]
  | ok result =>
    dsimp only
    rcases h2 : checkHandle result with e2 | b
    · simp [hc1]
    · cases b with
      | false => simp [hc1]
      | true =>
        dsimp only
        rcases h3 : getCubeHandle result with e3 | ch
        · simp [hc1]
        · dsimp only
          rcases h4 : sendScripted "GetLayout" [] ch st1 with ⟨r2, st2⟩
          have ht2 : st2.trace = st1.trace ++ [⟨"GetLayout", [], ch⟩] := by
            have h := sendScripted_trace "GetLayout" [] ch st1
            rw [h4] at h
            exact h
          have hc2 : countDestroys st2.trace ("field-values-" ++ fn) = 0 := by
            rw [ht2, countDestroys_append, hc1]
            rfl
          cases r2 with
          | error e => simp [hc2]
          | ok layout =>
            dsimp only
            rcases h5 : checkLayoutListObject layout with e5 | b5
            · simp [hc2]
            · cases b5 with
              | false =>
                dsimp only
                rw [sendScripted_trace, countDestroys_append, hc2,
                  countDestroys_self_destroy]
              | true =>
                dsimp only
                rcases h6 : getListObject layout with e6 | lo
                · simp [hc2]
                · dsimp only
                  rcases h7 : processListObject fn ch lo with e7 | fi
                  · simp [hc2]
                  · dsimp only
                    rcases h8 : sendScripted "DestroySessionObject"
                        [.str ("field-values-" ++ fn)] app st2 with ⟨r3, st3⟩
                    have ht3 : st3.trace = st2.trace ++
                        [⟨"DestroySessionObject",
                          [.str ("field-values-" ++ fn)], app⟩] := by
                      have h := sendScripted_trace "DestroySessionObject"
                        [.str ("field-values-" ++ fn)] app st2
                      rw [h8] at h
                      exact h
                    have hc3 : countDestroys st3.trace ("field-values-" ++ fn) = 1 := by
                      rw [ht3, countDestroys_append, hc2, countDestroys_self_destroy]
                    cases r3 with
                    | error ce => simp [hc3]
                    | ok d => simp [hc3]

/-- C1 (amended): for both session-object operations, `get_table_data`
and `get_field_values`, once `CreateSessionObject` has returned a handle,
exactly one `DestroySessionObject` for the object's id is issued on the
success path and on the malformed-layout path, but none at all when
`GetLayout` itself raises or when an exception is raised while processing
the layout (the outer handler returns the error result without cleanup);
and over every script whatsoever at most one destroy for the object's id
is issued by either operation. -/
theorem session_object_destroy_paths :
    (∀ (app : JVal) (tn : String) (fields : List String) (mr : Int)
        (script : List (Except Exn JVal)),
        countDestroys ((get_table_data app tn fields mr
          { script := script, trace := [] }).2).trace ("table-data-" ++ tn) ≤ 1)
    ∧ (∀ (app ch : JVal) (tn : String) (fields : List String) (mr : Int)
        (createResp : JVal) (e : Exn) (rest : List (Except Exn JVal)),
        fields.isEmpty = false →
        checkHandle createResp = .ok true →
        getCubeHandle createResp = .ok ch →
        countDestroys ((get_table_data app tn fields mr
          { script := .ok createResp :: .error e :: rest, trace := [] }).2).trace
          ("table-data-" ++ tn) = 0)
    ∧ (∀ (app ch : JVal) (tn : String) (fields : List String) (mr : Int)
        (createResp layout : JVal) (rest : List (Except Exn JVal)),
        fields.isEmpty = false →
        checkHandle createResp = .ok true →
        getCubeHandle createResp = .ok ch →
        checkLayoutHyperCube layout = .ok false →
        countDestroys ((get_table_data app tn fields mr
          { script := .ok createResp :: .ok layout :: rest, trace := [] }).2).trace
          ("table-data-" ++ tn) = 1)
    ∧ (∀ (app ch : JVal) (tn : String) (fields : List String) (mr : Int)
        (createResp layout hc rd : JVal) (rest : List (Except Exn JVal)),
        fields.isEmpty = false →
        checkHandle createResp = .ok true →
        getCubeHandle createResp = .ok ch →
        checkLayoutHyperCube layout = .ok true →
        getHyperCube layout = .ok hc →
        processHypercube tn (fields.take 20) (decide (fields.length > 20)) hc
          = .ok rd →
        countDestroys ((get_table_data app tn fields mr
          { script := .ok createResp :: .ok layout :: rest, trace := [] }).2).trace
          ("table-data-" ++ tn) = 1)
    ∧ (∀ (app ch : JVal) (tn : String) (fields : List String) (mr : Int)
        (createResp layout hc : JVal) (pe : Exn) (rest : List (Except Exn JVal)),
        fields.isEmpty = false →
        checkHandle createResp = .ok true →
        getCubeHandle createResp = .ok ch →
        checkLayoutHyperCube layout = .ok true →
        getHyperCube layout = .ok hc →
        processHypercube tn (fields.take 20) (decide (fields.length > 20)) hc
          = .error pe →
        countDestroys ((get_table_data app tn fields mr
          { script := .ok createResp :: .ok layout :: rest, trace := [] }).2).trace
          ("table-data-" ++ tn) = 0)
    ∧ (∀ (app ch : JVal) (fn : String) (mv : Int) (incf : Bool)
        (createResp : JVal) (e : Exn) (rest : List (Except Exn JVal)),
        checkHandle createResp = .ok true →
        getCubeHandle createResp = .ok ch →
        countDestroys ((get_field_values app fn mv incf
          { script := .ok createResp :: .error e :: rest, trace := [] }).2).trace
          ("field-values-" ++ fn) = 0)
    ∧ (∀ (app ch : JVal) (fn : String) (mv : Int) (incf : Bool)
        (createResp layout lo fi : JVal) (rest : List (Except Exn JVal)),
        checkHandle createResp = .ok true →
        getCubeHandle createResp = .ok ch →
        checkLayoutListObject layout = .ok true →
        getListObject layout = .ok lo →
        processListObject fn ch lo = .ok fi →
        countDestroys ((get_field_values app fn mv incf
          { script := .ok createResp :: .ok layout :: rest, trace := [] }).2).trace
          ("field-values-" ++ fn) = 1)
    ∧ (∀ (app : JVal) (fn : String) (mv : Int) (incf : Bool)
        (script : List (Except Exn JVal)),
        countDestroys ((get_field_values app fn mv incf
          { script := script, trace := [] }).2).trace ("field-values-" ++ fn) ≤ 1)
    ∧ (∀ (app ch : JVal) (fn : String) (mv : Int) (incf : Bool)
        (createResp layout : JVal) (rest : List (Except Exn JVal)),
        checkHandle createResp = .ok true →
        getCubeHandle createResp = .ok ch →
        checkLayoutListObject layout = .ok false →
        countDestroys ((get_field_values app fn mv incf
          { script := .ok createResp :: .ok layout :: rest, trace := [] }).2).trace
          ("field-values-" ++ fn) = 1)
    ∧ (∀ (app ch : JVal) (fn : String) (mv : Int) (incf : Bool)
        (createResp layout lo : JVal) (pe : Exn) (rest : List (Except Exn JVal)),
        checkHandle createResp = .ok true →
        getCubeHandle createResp = .ok ch →
        checkLayoutListObject layout = .ok true →
        getListObject layout = .ok lo →
        processListObject fn ch lo = .error pe →
        countDestroys ((get_field_values app fn mv incf
          { script := .ok createResp :: .ok layout :: rest, trace := [] }).2).trace
          ("field-values-" ++ fn) = 0) := by
  refine ⟨get_table_data_destroys_le_one, ?_, ?_, ?_, ?_, ?_, ?_,
    get_field_values_destroys_le_one, ?_, ?_⟩
  · intro app ch tn fields mr createResp e rest hemp hch hcube
    unfold get_table_data get_table_data_body
    rw [if_neg (by rw [hemp]; exact Bool.false_ne_true)]
    dsimp only
    rw [sendScripted_cons _ _ _ _ _ _ rfl]
    dsimp only
    rw [hch]
    dsimp only
    rw [hcube]
    dsimp only
    rw [sendScripted_cons _ _ _ _ _ _ rfl]
    rfl
  · intro app ch tn fields mr createResp layout rest hemp hch hcube hlay
    unfold get_table_data get_table_data_body
    rw [if_neg (by rw [hemp]; exact Bool.false_ne_true)]
    dsimp only
    rw [sendScripted_cons _ _ _ _ _ _ rfl]
    dsimp only
    rw [hch]
    dsimp only
    rw [hcube]
    dsimp only
    rw [sendScripted_cons _ _ _ _ _ _ rfl]
    dsimp only
    rw [hlay]
    dsimp only
    rw [sendScripted_trace, countDestroys_append, countDestroys_self_destroy]
    rfl
  · intro app ch tn fields mr createResp layout hc rd rest hemp hch hcube hlay hhc hproc
    unfold get_table_data get_table_data_body
    rw [if_neg (by rw [hemp]; exact Bool.false_ne_true)]
    dsimp only
    rw [sendScripted_cons _ _ _ _ _ _ rfl]
    dsimp only
    rw [hch]
    dsimp only
    rw [hcube]
    dsimp only
    rw [sendScripted_cons _ _ _ _ _ _ rfl]
    simp only [List.nil_append, List.cons_append]
    try dsimp only
    rw [hlay]
    dsimp only
    rw [hhc]
    dsimp only
    rw [hproc]
    dsimp only
    rcases h8 : sendScripted "DestroySessionObject"
        [.str ("table-data-" ++ tn)] app
        { script := rest, trace := [⟨"CreateSessionObject",
            [tableObjDef tn (fields.take 20) mr], app⟩,
          ⟨"GetLayout", [], ch⟩] } with ⟨r3, st3⟩
    have ht3 := sendScripted_trace "DestroySessionObject"
      [.str ("table-data-" ++ tn)] app
      { script := rest, trace := [⟨"CreateSessionObject",
          [tableObjDef tn (fields.take 20) mr], app⟩,
        ⟨"GetLayout", [], ch⟩] }
    rw [h8] at ht3
    cases r3 with
    | error ce =>
      try dsimp only at ht3 ⊢
      rw [ht3, countDestroys_append, countDestroys_self_destroy]
      rfl
    | ok d =>
      try dsimp only at ht3 ⊢
      rw [ht3, countDestroys_append, countDestroys_self_destroy]
      rfl
  · intro app ch tn fields mr createResp layout hc pe rest hemp hch hcube hlay hhc hproc
    unfold get_table_data get_table_data_body
    rw [if_neg (by rw [hemp]; exact Bool.false_ne_true)]
    dsimp only
    rw [sendScripted_cons _ _ _ _ _ _ rfl]
    dsimp only
    rw [hch]
    dsimp only
    rw [hcube]
    dsimp only
    rw [sendScripted_cons _ _ _ _ _ _ rfl]
    dsimp only
    rw [hlay]
    dsimp only
    rw [hhc]
    dsimp only
    rw [hproc]
    rfl
  · intro app ch fn mv incf createResp e rest hch hcube
    unfold get_field_values get_field_values_body
    rw [sendScripted_cons _ _ _ _ _ _ rfl]
    dsimp only
    rw [hch]
    dsimp only
    rw [hcube]
    dsimp only
    rw [sendScripted_cons _ _ _ _ _ _ rfl]
    rfl
  · intro app ch fn mv incf createResp layout lo fi rest hch hcube hlay hlo hproc
    unfold get_field_values get_field_values_body
    rw [sendScripted_cons _ _ _ _ _ _ rfl]
    dsimp only
    rw [hch]
    dsimp only
    rw [hcube]
    dsimp only
    rw [sendScripted_cons _ _ _ _ _ _ rfl]
    simp only [List.nil_append, List.cons_append]
    try dsimp only
    rw [hlay]
    dsimp only
    rw [hlo]
    dsimp only
    rw [hproc]
    dsimp only
    rcases h8 : sendScripted "DestroySessionObject"
        [.str ("field-values-" ++ fn)] app
        { script := rest, trace := [⟨"CreateSessionObject",
            [listObjDef fn mv incf], app⟩,
          ⟨"GetLayout", [], ch⟩] } with ⟨r3, st3⟩
    have ht3 := sendScripted_trace "DestroySessionObject"
      [.str ("field-values-" ++ fn)] app
      { script := rest, trace := [⟨"CreateSessionObject",
          [listObjDef fn mv incf], app⟩,
        ⟨"GetLayout", [], ch⟩] }
    rw [h8] at ht3
    cases r3 with
    | error ce =>
      try dsimp only at ht3 ⊢
      rw [ht3, countDestroys_append, countDestroys_self_destroy]
      rfl
    | ok d =>
      try dsimp only at ht3 ⊢
      rw [ht3, countDestroys_append, countDestroys_self_destroy]
      rfl

  · intro app ch fn mv incf createResp layout rest hch hcube hlay
    unfold get_field_values get_field_values_body
    rw [sendScripted_cons _ _ _ _ _ _ rfl]
    dsimp only
    rw [hch]
    dsimp only
    rw [hcube]
    dsimp only
    rw [sendScripted_cons _ _ _ _ _ _ rfl]
    dsimp only
    rw [hlay]
    dsimp only
    rw [sendScripted_trace, countDestroys_append, countDestroys_self_destroy]
    rfl
  · intro app ch fn mv incf createResp layout lo pe rest hch hcube hlay hlo hproc
    unfold get_field_values get_field_values_body
    rw [sendScripted_cons _ _ _ _ _ _ rfl]
    dsimp only
    rw [hch]
    dsimp only
    rw [hcube]
    dsimp only
    rw [sendScripted_cons _ _ _ _ _ _ rfl]
    dsimp only
    rw [hlay]
    dsimp only
    rw [hlo]
    dsimp only
    rw [hproc]
    rfl

/-- Counterexample to C1 as stated: `CreateSessionObject` returns a
handle (the check passes), `GetLayout` then raises an engine error, the
operation returns an error result — and zero `DestroySessionObject` calls
appear in the trace, where the claim requires exactly one on every exit
path. -/
theorem session_lifecycle_counterexample :
    checkHandle (.obj [("qReturn", .obj [("qHandle", .num 7)])]) = .ok true
    ∧ countDestroys ((get_table_data (.num 1) "T" ["a"] 10
        { script := [.ok (.obj [("qReturn", .obj [("qHandle", .num 7)])]),
                     .error (.engine (.str "boom"))], trace := [] }).2).trace
        "table-data-T" = 0
    ∧ jHasKey ((get_table_data (.num 1) "T" ["a"] 10
        { script := [.ok (.obj [("qReturn", .obj [("qHandle", .num 7)])]),
                     .error (.engine (.str "boom"))], trace := [] }).1) "error" = true
    ∧ (0 : Nat) ≠ 1 :=
  ⟨rfl, rfl, rfl, by decide⟩

/-- Witness for C1 (amended): a malformed layout (scenario B) triggers
exactly one destroy call for the object's id. -/
theorem session_object_destroy_paths_witness :
    countDestroys ((get_table_data (.num 1) "T" ["f"] 5
      { script := [.ok (.obj [("qReturn", .obj [("qHandle", .num 7)])]),
                   .ok (.obj [])], trace := [] }).2).trace "table-data-T" = 1 := by
  have h := session_object_destroy_paths.2.2.1 (.num 1) (.num 7) "T" ["f"] 5
    (.obj [("qReturn", .obj [("qHandle", .num 7)])]) (.obj []) [] rfl rfl rfl rfl
  exact h
